import Mathlib

set_option linter.unusedVariables false

/-!
Verification development for the storage volume lifecycle and migration
engine (internal/server/storage/backend.go).

The Go source is embedded shallowly: pure helpers become Lean functions,
stateful operations become explicit state-passing functions over a
`StorState` (database rows + physical volumes) that additionally emit a
trace of the database/driver calls they perform.  Driver behaviour
(success/failure of each physical call) is injected through a
`DriverBehavior` record, so failure-injection properties can be stated.

Definitions are translated from the source file; the handful of helpers
that live outside the provided sources (the metadata store CRUD, the
snapshot comparison helper, the storage naming convention) are modelled
from the specification and marked as such in their doc comments.
-/

namespace IncusStorage

/-- Pool status values (api.StoragePoolStatus*). -/
inductive PoolStatus where
  | pending
  | created
  | errored
  | unknown
  | unavailable
deriving DecidableEq, Repr

/-- Volume types (drivers.VolumeType*). -/
inductive VolType where
  | container
  | vm
  | image
  | custom
  | bucket
deriving DecidableEq, Repr

/-- Volume content types (drivers.ContentType*). -/
inductive ContentType where
  | fs
  | block
  | iso
deriving DecidableEq, Repr

/-- Error model.  Mirrors the error taxonomy of the source: sentinel driver
errors, HTTP-style status errors, plain message errors and fmt.Errorf
"%w"-style wrapping. -/
inductive Err where
  | cannotBeShrunk
  | notSupported
  | deleteSnapshots (snaps : List String)
  | backupSnapshotsMismatch
  | notFound
  | statusError (code : Nat) (m : String)
  | msg (m : String)
  | wrap (ctx : String) (e : Err)
deriving DecidableEq, Repr

/-- errors.Is: checks the error itself, then unwraps through wrapping. -/
def Err.is : Err → Err → Bool
  | .wrap _ e, t => e == t || e.is t
  | e, t => e == t

/-- errors.As for drivers.ErrDeleteSnapshots: extracts the blocking snapshot
list through any wrapping. -/
def Err.asDeleteSnapshots : Err → Option (List String)
  | .deleteSnapshots snaps => some snaps
  | .wrap _ e => e.asDeleteSnapshots
  | _ => none

/-- Volume names as stored in the database: either a plain volume name or a
snapshot name of the form parent-slash-snapshot
(api.GetParentAndSnapshotName's two shapes). -/
inductive VolName where
  | plain (n : String)
  | snap (parent : String) (snapName : String)
deriving DecidableEq, Repr

/-- drivers.GetSnapshotVolumeName: combines parent volume name and snapshot
name into the snapshot volume name. -/
def GetSnapshotVolumeName (parent snapName : String) : VolName :=
  .snap parent snapName

/-- api.GetParentAndSnapshotName: splits a volume name into parent name,
snapshot name and an is-snapshot flag. -/
def GetParentAndSnapshotName : VolName → String × String × Bool
  | .plain n => (n, "", false)
  | .snap parent snapName => (parent, snapName, true)

/-- Modelled from the spec: the storage-level naming convention derives
(project, name) for project-scoped volumes, while image volumes are keyed
directly by fingerprint (GetVolume is called with the raw fingerprint). -/
inductive StorageName where
  | vol (project : String) (name : VolName)
  | image (fingerprint : String)
deriving DecidableEq, Repr

/-- Modelled from the spec: project.StorageVolume, the storage-level name of
a project-scoped volume. -/
def StorageVolume (projectName : String) (volName : VolName) : StorageName :=
  .vol projectName volName

/-- Database key of a volume record: (project, name, type), the scope used by
the metadata store interface. -/
structure VolKey where
  project : String
  name : VolName
  volType : VolType
deriving DecidableEq, Repr

/-- Volume config relevant to the modelled operations: block-backed mode,
block filesystem and size ("block.filesystem", "size" and the driver's
block-backed mode). -/
structure VolConfig where
  blockBacked : Bool
  blockFS : String
  size : String
deriving DecidableEq, Repr

/-- A volume/snapshot metadata row of the metadata store. -/
structure VolRecord where
  key : VolKey
  isSnapshot : Bool
  config : VolConfig
  description : String
  contentType : ContentType
  creationDate : Nat
  expiryDate : Option Nat
deriving DecidableEq, Repr

/-- A physical volume as known to the driver: volume type plus storage-level
name. -/
structure PhysVol where
  volType : VolType
  name : StorageName
deriving DecidableEq, Repr

/-- Combined state: the metadata store rows and the physical volumes present
on the storage device. -/
structure StorState where
  dbVols : List VolRecord
  physVols : List PhysVol
deriving DecidableEq, Repr

/-- Modelled from the spec: VolumeDBGet of the metadata store interface —
look up the row for a (project, name, type) key, not-found error when no
row exists. -/
def VolumeDBGet (st : StorState) (k : VolKey) : Except Err VolRecord :=
  match st.dbVols.find? (fun r => r.key == k) with
  | some r => .ok r
  | none => .error .notFound

/-- response.IsNotFoundError. -/
def IsNotFoundError (e : Err) : Bool :=
  e.is .notFound

/-- Modelled from the spec: VolumeDBSnapshotsGet of the metadata store
interface — all snapshot rows of the given parent volume, scoped by
(project, parent name, type). -/
def VolumeDBSnapshotsGet (st : StorState) (projectName : String) (volName : String) (volType : VolType) : List VolRecord :=
  st.dbVols.filter (fun r =>
    r.isSnapshot && r.key.project == projectName && r.key.volType == volType &&
      match r.key.name with
      | .snap parent _ => parent == volName
      | .plain _ => false)

/-- Events recording each database/driver call an operation performs, in
order.  The ok flag on driver calls records whether the call succeeded. -/
inductive Ev where
  | dbCreate (r : VolRecord)
  | dbDelete (k : VolKey)
  | dbUpdate (k : VolKey) (config : VolConfig) (description : String)
  | drvCreateVolume (v : PhysVol) (ok : Bool)
  | drvDeleteVolume (v : PhysVol) (ok : Bool)
  | drvDeleteVolumeSnapshot (v : PhysVol) (ok : Bool)
  | drvSetQuota (v : PhysVol) (ok : Bool)
  | drvRestore (v : PhysVol) (snapName : String) (attempt : Nat) (ok : Bool)
  | drvRefreshVolume (v : PhysVol) (srcSnaps : List VolName) (ok : Bool)
  | drvCreateFromMigration (v : PhysVol) (ok : Bool)
  | instSnapshotDelete (projectName parent snapName : String) (volType : VolType)
  | authAdd (k : VolKey)
  | authDelete (k : VolKey)
  | indexHeaderReceived
deriving DecidableEq, Repr

/-- Driver capability info (drivers.Info), restricted to fields the modelled
operations consult. -/
structure DriverInfo where
  volumeTypes : List VolType
  optimizedImages : Bool
  remote : Bool

/-- Injected driver behaviour: result of each fallible driver call (none is
success), plus the pool's current default volume settings filled in by
FillVolumeConfig.  restoreVolume is indexed by attempt number. -/
structure DriverBehavior where
  info : DriverInfo
  createVolume : PhysVol → Option Err
  deleteVolume : PhysVol → Option Err
  deleteVolumeSnapshot : PhysVol → Option Err
  setVolumeQuota : PhysVol → Option Err
  restoreVolume : Nat → Option Err
  refreshVolume : PhysVol → Option Err
  createVolumeFromMigration : PhysVol → Option Err
  instSnapshotDelete : String → Option Err
  fillBlockBacked : Bool
  fillBlockFS : String

/-- State effect of one event: exactly the metadata-store / driver state
changes the corresponding call performs. -/
def applyEv (st : StorState) : Ev → StorState
  | .dbCreate r => { st with dbVols := st.dbVols ++ [r] }
  | .dbDelete k => { st with dbVols := st.dbVols.filter (fun r => r.key != k) }
  | .dbUpdate k config description =>
      { st with dbVols := st.dbVols.map (fun r =>
          if r.key == k then { r with config := config, description := description } else r) }
  | .drvCreateVolume v ok => if ok then { st with physVols := st.physVols ++ [v] } else st
  | .drvDeleteVolume v ok => if ok then { st with physVols := st.physVols.filter (fun w => w != v) } else st
  | .drvDeleteVolumeSnapshot v ok => if ok then { st with physVols := st.physVols.filter (fun w => w != v) } else st
  | .drvSetQuota _ _ => st
  | .drvRestore _ _ _ _ => st
  | .drvRefreshVolume v srcSnaps ok =>
      if ok then
        match v.name with
        | .vol project (.plain parent) =>
            { st with physVols := st.physVols ++ srcSnaps.filterMap (fun sn =>
                match sn with
                | .snap _ s => some ⟨v.volType, .vol project (.snap parent s)⟩
                | .plain _ => none) }
        | _ => st
      else st
  | .drvCreateFromMigration v ok => if ok then { st with physVols := st.physVols ++ [v] } else st
  | .instSnapshotDelete projectName parent snapName volType =>
      let k : VolKey := ⟨projectName, .snap parent snapName, volType⟩
      let v : PhysVol := ⟨volType, .vol projectName (.snap parent snapName)⟩
      { st with
        dbVols := st.dbVols.filter (fun r => r.key != k),
        physVols := st.physVols.filter (fun w => w != v) }
  | .authAdd _ => st
  | .authDelete _ => st
  | .indexHeaderReceived => st

/-- Replay a list of events against a state. -/
def applyEvs (st : StorState) (evs : List Ev) : StorState :=
  evs.foldl applyEv st

/-- A compensating action queued on the reverter (revert.Add): the explicit
inverse operations the source registers as closures. -/
inductive RevertAction where
  | volumeDBDelete (k : VolKey)
  | volumeDBUpdate (k : VolKey) (config : VolConfig) (description : String)
  | driverDeleteVolume (v : PhysVol)
  | authorizerDelete (k : VolKey)
deriving DecidableEq, Repr

/-- The event a compensating action produces when executed (compensating
actions are best-effort: driver errors are ignored). -/
def revertEv (d : DriverBehavior) : RevertAction → Ev
  | .volumeDBDelete k => .dbDelete k
  | .volumeDBUpdate k config description => .dbUpdate k config description
  | .driverDeleteVolume v => .drvDeleteVolume v (d.deleteVolume v == none)
  | .authorizerDelete k => .authDelete k

/-- revert.Fail: runs the accumulated compensating actions in reverse (LIFO)
order, returning the resulting state and the events performed. -/
def runReverts (d : DriverBehavior) (reverts : List RevertAction) (st : StorState) : StorState × List Ev :=
  reverts.reverse.foldl
    (fun acc a =>
      let ev := revertEv d a
      (applyEv acc.1 ev, acc.2 ++ [ev]))
    (st, [])

/-- Result of one Backend operation: optional error (none is success), final
state, and the trace of database/driver calls performed. -/
structure OpOut where
  err : Option Err
  st : StorState
  tr : List Ev
deriving DecidableEq, Repr

/-- Backend fields the modelled operations consult: pool status as stored in
the database row, and the LocalStatus() of this member. -/
structure Backend where
  name : String
  status : PoolStatus
  localStatus : PoolStatus

/-- isStatusReady returns an error if pool is not ready for use on this
server (backend.go:146). -/
def isStatusReady (b : Backend) : Option Err :=
  if b.status == .pending then
    some (.msg "Specified pool is not fully created")
  else if b.localStatus == .unavailable then
    some (.statusError 503 "Storage pool is unavailable on this server")
  else
    none

/-- Go's unicode.IsSpace: Latin-1 space characters plus the White_Space
ranges of the Unicode tables. -/
def unicodeIsSpace (c : Char) : Bool :=
  let n := c.toNat
  (9 ≤ n && n ≤ 13) || n == 32 || n == 0x85 || n == 0xA0 ||
    n == 0x1680 || (0x2000 ≤ n && n ≤ 0x200A) || n == 0x2028 || n == 0x2029 ||
    n == 0x202F || n == 0x205F || n == 0x3000

/-- ValidateName validates the provided name (backend.go:105): rejects names
containing a slash, then any rune for which unicode.IsSpace holds. -/
def ValidateName (value : List Char) : Option Err :=
  if value.contains '/' then
    some (.msg "Storage name cannot contain slash")
  else if value.any unicodeIsSpace then
    some (.msg "Storage name cannot contain white space")
  else
    none

/-- The default project name (api.ProjectDefaultName), the project image
volumes are stored under. -/
def projectDefault : String := "default"

/-- CreateCustomVolume creates an empty custom volume (backend.go:4662):
status gate, volume-type support check, VolumeDBCreate with a queued
compensating deletion, then the physical driver CreateVolume; on driver
failure the compensating actions run (LIFO) and the error is returned. -/
def CreateCustomVolume (b : Backend) (d : DriverBehavior) (st : StorState)
    (projectName volName : String) (desc : String) (config : VolConfig)
    (contentType : ContentType) (now : Nat) : OpOut :=
  match isStatusReady b with
  | some e => ⟨some e, st, []⟩
  | none =>
    let vol : PhysVol := ⟨.custom, StorageVolume projectName (.plain volName)⟩
    if !(d.info.volumeTypes.contains VolType.custom) then
      ⟨some (.msg "Storage pool does not support custom volume type"), st, []⟩
    else
      let key : VolKey := ⟨projectName, .plain volName, .custom⟩
      let rec0 : VolRecord := ⟨key, false, config, desc, contentType, now, none⟩
      if st.dbVols.any (fun r => r.key == key) then
        ⟨some (.msg "Volume record already exists"), st, []⟩
      else
        let ev1 := Ev.dbCreate rec0
        let st1 := applyEv st ev1
        let reverts : List RevertAction := [.volumeDBDelete key]
        match d.createVolume vol with
        | some e =>
            let ev2 := Ev.drvCreateVolume vol false
            let res := runReverts d reverts (applyEv st1 ev2)
            ⟨some e, res.1, [ev1, ev2] ++ res.2⟩
        | none =>
            let ev2 := Ev.drvCreateVolume vol true
            ⟨none, applyEv st1 ev2, [ev1, ev2, .authAdd key]⟩

/-- DeleteInstance removes the instance's root volume (backend.go:2336):
snapshots must already be gone, the physical volume is deleted first (when
present), and only then the database record is removed. -/
def DeleteInstance (b : Backend) (d : DriverBehavior) (st : StorState)
    (projectName instName : String) (isSnapshot : Bool) (typeIsVM : Bool) : OpOut :=
  if isSnapshot then
    ⟨some (.msg "Instance must not be a snapshot"), st, []⟩
  else
    let volType := if typeIsVM then VolType.vm else VolType.container
    let dbVolSnaps := VolumeDBSnapshotsGet st projectName instName volType
    if dbVolSnaps.length > 0 then
      ⟨some (.msg "Cannot remove an instance volume that has snapshots"), st, []⟩
    else
      let vol : PhysVol := ⟨volType, .vol projectName (.plain instName)⟩
      let key : VolKey := ⟨projectName, .plain instName, volType⟩
      if st.physVols.contains vol then
        match d.deleteVolume vol with
        | some e =>
            ⟨some (.wrap "Error deleting storage volume" e), st, [.drvDeleteVolume vol false]⟩
        | none =>
            let ev1 := Ev.drvDeleteVolume vol true
            let ev2 := Ev.dbDelete key
            ⟨none, applyEv (applyEv st ev1) ev2, [ev1, ev2, .authDelete key]⟩
      else
        let ev2 := Ev.dbDelete key
        ⟨none, applyEv st ev2, [ev2, .authDelete key]⟩

/-- DeleteImage removes an image volume (backend.go:3733): loads the DB
record, deletes the physical volume first when it exists, then the record. -/
def DeleteImage (b : Backend) (d : DriverBehavior) (st : StorState) (fingerprint : String) : OpOut :=
  let imgKey : VolKey := ⟨projectDefault, .plain fingerprint, .image⟩
  match VolumeDBGet st imgKey with
  | .error e => ⟨some e, st, []⟩
  | .ok _ =>
      let vol : PhysVol := ⟨.image, .image fingerprint⟩
      if st.physVols.contains vol then
        match d.deleteVolume vol with
        | some e => ⟨some e, st, [.drvDeleteVolume vol false]⟩
        | none =>
            let ev1 := Ev.drvDeleteVolume vol true
            let ev2 := Ev.dbDelete imgKey
            ⟨none, applyEv (applyEv st ev1) ev2, [ev1, ev2, .authDelete imgKey]⟩
      else
        let ev2 := Ev.dbDelete imgKey
        ⟨none, applyEv st ev2, [ev2, .authDelete imgKey]⟩

/-- The image-volume creation tail of EnsureImage (backend.go:3616-3663):
VolumeDBCreate with compensating deletion, authorizer record with
compensating removal, then the physical driver CreateVolume; on driver
failure the compensating actions run in LIFO order.  The created row
records the pool's current default settings (the config FillVolumeConfig
fills for a fresh volume). -/
def ensureImageCreateTail (b : Backend) (d : DriverBehavior) (st : StorState)
    (fingerprint : String) (contentType : ContentType) (tr : List Ev) (now : Nat) : OpOut :=
  let imgKey : VolKey := ⟨projectDefault, .plain fingerprint, .image⟩
  let imgPhys : PhysVol := ⟨.image, .image fingerprint⟩
  let rec0 : VolRecord := ⟨imgKey, false, ⟨d.fillBlockBacked, d.fillBlockFS, ""⟩, "", contentType, now, none⟩
  if st.dbVols.any (fun r => r.key == imgKey) then
    ⟨some (.msg "Volume record already exists"), st, tr⟩
  else
    let ev1 := Ev.dbCreate rec0
    let st1 := applyEv st ev1
    let reverts : List RevertAction := [.volumeDBDelete imgKey, .authorizerDelete imgKey]
    match d.createVolume imgPhys with
    | some e =>
        let ev2 := Ev.drvCreateVolume imgPhys false
        let res := runReverts d reverts (applyEv st1 ev2)
        ⟨some e, res.1, tr ++ [ev1, .authAdd imgKey, ev2] ++ res.2⟩
    | none =>
        let ev2 := Ev.drvCreateVolume imgPhys true
        ⟨none, applyEv st1 ev2, tr ++ [ev1, .authAdd imgKey, ev2]⟩

/-- The part of EnsureImage after the stale-settings check (backend.go:3557
onwards): check for the volume on storage, apply the size policy to a
recorded cache hit (rebuilding on ErrCannotBeShrunk / ErrNotSupported),
delete an unrecorded leftover volume, then fall through to creation. -/
def ensureImageAfterStaleCheck (b : Backend) (d : DriverBehavior) (st : StorState)
    (fingerprint : String) (contentType : ContentType) (haveDBVol : Bool)
    (tr : List Ev) (now : Nat) : OpOut :=
  let imgPhys : PhysVol := ⟨.image, .image fingerprint⟩
  if st.physVols.contains imgPhys then
    if haveDBVol then
      match d.setVolumeQuota imgPhys with
      | some e =>
          if e.is .cannotBeShrunk || e.is .notSupported then
            let del := DeleteImage b d st fingerprint
            match del.err with
            | some e2 => ⟨some e2, del.st, tr ++ [.drvSetQuota imgPhys false] ++ del.tr⟩
            | none =>
                ensureImageCreateTail b d del.st fingerprint contentType
                  (tr ++ [.drvSetQuota imgPhys false] ++ del.tr) now
          else
            ⟨some e, st, tr ++ [.drvSetQuota imgPhys false]⟩
      | none =>
          -- We already have a valid volume at the correct size, just return.
          ⟨none, st, tr ++ [.drvSetQuota imgPhys true]⟩
    else
      -- Unrecorded on-disk volume: assume partial unpack and delete it.
      match d.deleteVolume imgPhys with
      | some e =>
          ⟨some (.wrap "Failed deleting leftover/partially unpacked image volume" e), st,
            tr ++ [.drvDeleteVolume imgPhys false]⟩
      | none =>
          ensureImageCreateTail b d (applyEv st (.drvDeleteVolume imgPhys true)) fingerprint
            contentType (tr ++ [.drvDeleteVolume imgPhys true]) now
  else
    ensureImageCreateTail b d st fingerprint contentType tr now

/-- EnsureImage (backend.go:3461): status gate, OptimizedImages gate, then
cache lookup; a cached volume whose block-backed mode or block filesystem
no longer matches the pool's current defaults is deleted and recreated;
otherwise the size policy is applied to a cache hit and only an
unreusable volume is rebuilt. -/
def EnsureImage (b : Backend) (d : DriverBehavior) (st : StorState)
    (fingerprint : String) (imageIsVM : Bool) (now : Nat) : OpOut :=
  match isStatusReady b with
  | some e => ⟨some e, st, []⟩
  | none =>
    if !d.info.optimizedImages then
      ⟨none, st, []⟩
    else
      let contentType := if imageIsVM then ContentType.block else ContentType.fs
      let imgKey : VolKey := ⟨projectDefault, .plain fingerprint, .image⟩
      match st.dbVols.find? (fun r => r.key == imgKey) with
      | some imgDBVol =>
          let blockModeChanged := d.fillBlockBacked != imgDBVol.config.blockBacked
          let blockFSChanged := imgDBVol.config.blockBacked && imgDBVol.config.blockFS != d.fillBlockFS
          if blockModeChanged || blockFSChanged then
            let del := DeleteImage b d st fingerprint
            match del.err with
            | some e => ⟨some e, del.st, del.tr⟩
            | none => ensureImageAfterStaleCheck b d del.st fingerprint contentType false del.tr now
          else
            ensureImageAfterStaleCheck b d st fingerprint contentType true [] now
      | none =>
          ensureImageAfterStaleCheck b d st fingerprint contentType false [] now

/-- DeleteCustomVolumeSnapshot (backend.go:6090): the name must be a
snapshot, the record must exist, the physical snapshot is deleted first
(when present on storage), then the database record. -/
def DeleteCustomVolumeSnapshot (b : Backend) (d : DriverBehavior) (st : StorState)
    (projectName : String) (volName : VolName) : OpOut :=
  match volName with
  | .plain _ => ⟨some (.msg "Volume name must be a snapshot"), st, []⟩
  | .snap _ _ =>
      let key : VolKey := ⟨projectName, volName, .custom⟩
      match VolumeDBGet st key with
      | .error e => ⟨some e, st, []⟩
      | .ok _ =>
          let vol : PhysVol := ⟨.custom, StorageVolume projectName volName⟩
          if st.physVols.contains vol then
            match d.deleteVolumeSnapshot vol with
            | some e => ⟨some e, st, [.drvDeleteVolumeSnapshot vol false]⟩
            | none =>
                let ev1 := Ev.drvDeleteVolumeSnapshot vol true
                let ev2 := Ev.dbDelete key
                ⟨none, applyEv (applyEv st ev1) ev2, [ev1, ev2]⟩
          else
            let ev2 := Ev.dbDelete key
            ⟨none, applyEv st ev2, [ev2]⟩

/-- Snapshot attributes used for reconciliation. -/
structure ComparableSnapshot where
  name : String
  creationDate : Nat
deriving DecidableEq, Repr

/-- Modelled from the spec: CompareSnapshots (called at backend.go:1340 but
defined outside the provided sources).  Per the spec, snapshot set
reconciliation "uses a comparison by name": it returns the indexes of the
source snapshots missing from the target (to sync) and the indexes of the
target snapshots missing from the source (to delete).  The excludeOlder
flag is part of the call signature but the spec's reconciliation relation
is by name. -/
def CompareSnapshots (source target : List ComparableSnapshot) (excludeOlder : Bool) :
    List Nat × List Nat :=
  let sourceNames := source.map (fun s => s.name)
  let targetNames := target.map (fun s => s.name)
  let syncFromSource := (source.enum.filter (fun p => !targetNames.contains p.2.name)).map (fun p => p.1)
  let deleteFromTarget := (target.enum.filter (fun p => !sourceNames.contains p.2.name)).map (fun p => p.1)
  (syncFromSource, deleteFromTarget)

/-- Snapshot short name of a snapshot volume record. -/
def snapShortName (r : VolRecord) : String :=
  (GetParentAndSnapshotName r.key.name).2.1

/-- The deletion pass of RefreshCustomVolume (backend.go:1342-1348): delete
the target snapshots selected by CompareSnapshots, stopping at the first
failure. -/
def refreshDeleteLoop (b : Backend) (d : DriverBehavior) (projectName : String)
    (targetSnaps : List VolRecord) :
    List Nat → StorState → List Ev → Option Err × StorState × List Ev
  | [], st, tr => (none, st, tr)
  | i :: rest, st, tr =>
      match targetSnaps.get? i with
      | none => (some (.msg "snapshot index out of range"), st, tr)
      | some r =>
          let del := DeleteCustomVolumeSnapshot b d st projectName r.key.name
          match del.err with
          | some e => (some e, del.st, tr ++ del.tr)
          | none => refreshDeleteLoop b d projectName targetSnaps rest del.st (tr ++ del.tr)

/-- Intermediate result of the snapshot database-creation pass. -/
structure RefreshLoopOut where
  err : Option Err
  st : StorState
  tr : List Ev
  reverts : List RevertAction

/-- The snapshot database-creation pass of the same-pool refresh path
(backend.go:1370-1391): create a database row for each snapshot to sync,
queueing a compensating deletion for each. -/
def refreshCreateLoop (projectName volName : String) (contentType : ContentType) :
    List VolRecord → StorState → List Ev → List RevertAction → RefreshLoopOut
  | [], st, tr, reverts => ⟨none, st, tr, reverts⟩
  | r :: rest, st, tr, reverts =>
      let newName := GetSnapshotVolumeName volName (snapShortName r)
      let key : VolKey := ⟨projectName, newName, .custom⟩
      let rec0 : VolRecord := ⟨key, true, r.config, r.description, contentType, r.creationDate, r.expiryDate⟩
      if st.dbVols.any (fun r0 => r0.key == key) then
        ⟨some (.msg "Volume record already exists"), st, tr, reverts⟩
      else
        let ev := Ev.dbCreate rec0
        refreshCreateLoop projectName volName contentType rest (applyEv st ev)
          (tr ++ [ev]) (reverts ++ [.volumeDBDelete key])

/-- RefreshCustomVolume, same-pool path (backend.go:1247-1396): status gate,
source config generation from the metadata store, content-type and
volume-type checks, snapshot reconciliation by name (delete the target
extras, sync only the missing source snapshots), snapshot row creation and
the driver RefreshVolume call.  The cross-pool branch (concurrent
migration over the in-memory pipe) is outside this sequential model; the
description/config defaulting is elided as it does not affect the
snapshot reconciliation. -/
def RefreshCustomVolume (b : Backend) (d : DriverBehavior) (st : StorState)
    (projectName srcProjectName0 volName srcVolName : String)
    (snapshots excludeOlder : Bool) : OpOut :=
  match isStatusReady b with
  | some e => ⟨some e, st, []⟩
  | none =>
    let srcProjectName := if srcProjectName0 == "" then projectName else srcProjectName0
    match VolumeDBGet st ⟨srcProjectName, .plain srcVolName, .custom⟩ with
    | .error e => ⟨some (.wrap "Failed generating volume refresh config" e), st, []⟩
    | .ok srcVolRec =>
        let srcSnapsAll := if snapshots then VolumeDBSnapshotsGet st srcProjectName srcVolName .custom else []
        if srcVolRec.contentType == ContentType.iso then
          ⟨some (.msg "Volume of this content type cannot be refreshed"), st, []⟩
        else if !(d.info.volumeTypes.contains VolType.custom) then
          ⟨some (.msg "Storage pool does not support custom volume type"), st, []⟩
        else
          let targetSnaps := VolumeDBSnapshotsGet st projectName volName .custom
          let cmp :=
            CompareSnapshots
              (srcSnapsAll.map (fun r => ⟨snapShortName r, r.creationDate⟩))
              (targetSnaps.map (fun r => ⟨snapShortName r, r.creationDate⟩))
              excludeOlder
          let deleteIdx := if snapshots then cmp.2 else []
          let syncIdx := cmp.1
          match refreshDeleteLoop b d projectName targetSnaps deleteIdx st [] with
          | (some e, st1, tr1) => ⟨some e, st1, tr1⟩
          | (none, st1, tr1) =>
              let syncRecords :=
                if snapshots then syncIdx.filterMap (fun i => srcSnapsAll.get? i) else []
              let out := refreshCreateLoop projectName volName srcVolRec.contentType syncRecords st1 tr1 []
              match out.err with
              | some e =>
                  let res := runReverts d out.reverts out.st
                  ⟨some e, res.1, out.tr ++ res.2⟩
              | none =>
                  let vol : PhysVol := ⟨.custom, StorageVolume projectName (.plain volName)⟩
                  let srcSnapNames := syncRecords.map (fun r => GetSnapshotVolumeName srcVolName (snapShortName r))
                  match d.refreshVolume vol with
                  | some e =>
                      let ev := Ev.drvRefreshVolume vol srcSnapNames false
                      let res := runReverts d out.reverts (applyEv out.st ev)
                      ⟨some e, res.1, out.tr ++ [ev] ++ res.2⟩
                  | none =>
                      let ev := Ev.drvRefreshVolume vol srcSnapNames true
                      ⟨none, applyEv out.st ev, out.tr ++ [ev]⟩

/-- The snapshot-pruning pass of RestoreInstanceSnapshot (backend.go:3341-
3352): walk the instance's snapshots and delete those listed in the
ErrDeleteSnapshots error, stopping at the first deletion failure. -/
def restoreDeleteSnapsLoop (d : DriverBehavior) (projectName instName : String)
    (volType : VolType) (blocking : List String) :
    List String → StorState → List Ev → Option Err × StorState × List Ev
  | [], st, tr => (none, st, tr)
  | s :: rest, st, tr =>
      if !(blocking.contains s) then
        restoreDeleteSnapsLoop d projectName instName volType blocking rest st tr
      else
        match d.instSnapshotDelete s with
        | some e => (some e, st, tr)
        | none =>
            let ev := Ev.instSnapshotDelete projectName instName s volType
            restoreDeleteSnapsLoop d projectName instName volType blocking rest
              (applyEv st ev) (tr ++ [ev])

/-- RestoreInstanceSnapshot (backend.go:3251): shape checks, config restore
from the snapshot row (with a queued compensating restore), then the
driver RestoreVolume; on ErrDeleteSnapshots the named blocking snapshots
held by the instance are deleted and the restore retried exactly once,
whose failure is final; any other restore error is returned immediately.
The source returns nil inside the ErrDeleteSnapshots branch without
calling reverter.Success, so the deferred Fail runs the compensating
actions there even on success, which the model mirrors. -/
def RestoreInstanceSnapshot (b : Backend) (d : DriverBehavior) (st : StorState)
    (projectName instName : String) (srcName : VolName)
    (instIsSnapshot srcIsSnapshot instIsRunning typeIsVM : Bool)
    (instSnapshots : List String) : OpOut :=
  if instIsSnapshot then
    ⟨some (.msg "Instance must not be snapshot"), st, []⟩
  else if !srcIsSnapshot then
    ⟨some (.msg "Source instance must be a snapshot"), st, []⟩
  else if instIsRunning then
    ⟨some (.msg "Instance must not be running to restore"), st, []⟩
  else
    let volType := if typeIsVM then VolType.vm else VolType.container
    let key : VolKey := ⟨projectName, .plain instName, volType⟩
    match VolumeDBGet st key with
    | .error e => ⟨some e, st, []⟩
    | .ok dbVol =>
        match srcName with
        | .plain _ => ⟨some (.msg "Volume name must be a snapshot"), st, []⟩
        | .snap _ snapshotName =>
            match VolumeDBGet st ⟨projectName, srcName, volType⟩ with
            | .error e => ⟨some e, st, []⟩
            | .ok srcDBVol =>
                let changed := dbVol.config != srcDBVol.config || dbVol.description != srcDBVol.description
                let stp :=
                  if changed then
                    let ev := Ev.dbUpdate key srcDBVol.config srcDBVol.description
                    (applyEv st ev, [ev],
                      [RevertAction.volumeDBUpdate key dbVol.config dbVol.description])
                  else
                    (st, ([] : List Ev), ([] : List RevertAction))
                let vol : PhysVol := ⟨volType, .vol projectName (.plain instName)⟩
                match d.restoreVolume 0 with
                | none =>
                    ⟨none, stp.1, stp.2.1 ++ [.drvRestore vol snapshotName 0 true]⟩
                | some e0 =>
                    match e0.asDeleteSnapshots with
                    | none =>
                        let res := runReverts d stp.2.2 stp.1
                        ⟨some e0, res.1, stp.2.1 ++ [.drvRestore vol snapshotName 0 false] ++ res.2⟩
                    | some blocking =>
                        match restoreDeleteSnapsLoop d projectName instName volType blocking
                            instSnapshots stp.1 (stp.2.1 ++ [.drvRestore vol snapshotName 0 false]) with
                        | (some e, st2, tr2) =>
                            let res := runReverts d stp.2.2 st2
                            ⟨some e, res.1, tr2 ++ res.2⟩
                        | (none, st2, tr2) =>
                            match d.restoreVolume 1 with
                            | some e1 =>
                                let res := runReverts d stp.2.2 st2
                                ⟨some e1, res.1, tr2 ++ [.drvRestore vol snapshotName 1 false] ++ res.2⟩
                            | none =>
                                let res := runReverts d stp.2.2 st2
                                ⟨none, res.1, tr2 ++ [.drvRestore vol snapshotName 1 true] ++ res.2⟩

/-- Per-snapshot metadata carried by the migration index header. -/
structure SnapInfo where
  name : String
  config : VolConfig
  description : String
  creationDate : Nat
  expiresAt : Option Nat
deriving DecidableEq, Repr

/-- The migration index header payload (localMigration.Info): the volume
config plus the ordered snapshot metadata. -/
structure MigInfo where
  volumeName : String
  volumeConfig : VolConfig
  volumeSnapshots : List SnapInfo
deriving DecidableEq, Repr

/-- The index header acknowledgement (localMigration.InfoResponse): an
HTTP-style status code and an optional refresh-flag override.  Modelled
from the spec: its Err() reports failure exactly when the status code is
not OK. -/
structure InfoResponse where
  statusCode : Nat
  refresh : Option Bool
deriving DecidableEq, Repr

/-- One frame on the migration connection: writing then closing the write
side produces exactly one frame, and reading to end-of-stream consumes
exactly one frame, so frames are the unit of exchange. -/
inductive Frame where
  | infoFrame (i : MigInfo)
  | respFrame (r : InfoResponse)
deriving DecidableEq, Repr

/-- migrationIndexHeaderSend (backend.go:4975): when the agreed index header
version is positive, serialize the info to one frame, write it and close
the write side, then read the acknowledgement to end-of-stream and fail
when it reports a non-OK status.  Returns the result together with the
frame written (none when the version is 0). -/
def migrationIndexHeaderSend (indexHeaderVersion : Nat) (info : MigInfo) (respFrame : Frame) :
    Except Err InfoResponse × Option Frame :=
  if indexHeaderVersion > 0 then
    let sent := Frame.infoFrame info
    match respFrame with
    | .respFrame r =>
        if r.statusCode != 200 then
          (.error (.wrap "Failed negotiating migration options" (.statusError r.statusCode "")), some sent)
        else
          (.ok r, some sent)
    | .infoFrame _ =>
        (.error (.msg "Failed decoding migration index header response"), some sent)
  else
    (.ok ⟨0, none⟩, none)

/-- migrationIndexHeaderReceive (backend.go:5019): when the agreed index
header version is positive, read the header frame to end-of-stream,
deserialize it, and acknowledge with a status-OK response carrying the
(possibly overridden) refresh flag.  Returns the received info together
with the acknowledgement frame written (none when the version is 0 or on
decode failure, which returns before replying). -/
def migrationIndexHeaderReceive (indexHeaderVersion : Nat) (headerFrame : Frame) (refresh : Bool) :
    Except Err MigInfo × Option Frame :=
  if indexHeaderVersion > 0 then
    match headerFrame with
    | .infoFrame i => (.ok i, some (.respFrame ⟨200, some refresh⟩))
    | .respFrame _ => (.error (.msg "Failed decoding migration index header"), none)
  else
    (.ok ⟨"", ⟨false, "", ""⟩, []⟩, none)

/-- Target-side arguments of a custom volume migration
(localMigration.VolumeTargetArgs), restricted to the consulted fields. -/
structure VolumeTargetArgs where
  name : String
  description : String
  config : VolConfig
  snapshots : List String
  refresh : Bool
  contentType : ContentType
  indexHeaderVersion : Nat
deriving Repr

/-- The snapshot database-row pass of CreateCustomVolumeFromMigration
(backend.go:5197-5237): create a row per target snapshot, preferring the
config/description/dates of the matching source header snapshot. -/
def migrationSnapshotRowsLoop (projectName volName : String) (contentType : ContentType)
    (parentConfig : VolConfig) (description : String) (srcSnaps : List SnapInfo) :
    List String → StorState → List Ev → List RevertAction → RefreshLoopOut
  | [], st, tr, reverts => ⟨none, st, tr, reverts⟩
  | snapName :: rest, st, tr, reverts =>
      let newName := GetSnapshotVolumeName volName snapName
      let key : VolKey := ⟨projectName, newName, .custom⟩
      let rec0 : VolRecord :=
        match srcSnaps.find? (fun s => s.name == snapName) with
        | some srcSnap =>
            ⟨key, true, srcSnap.config, srcSnap.description, contentType, srcSnap.creationDate, srcSnap.expiresAt⟩
        | none =>
            ⟨key, true, parentConfig, description, contentType, 0, none⟩
      if st.dbVols.any (fun r0 => r0.key == key) then
        ⟨some (.msg "Volume record already exists"), st, tr, reverts⟩
      else
        migrationSnapshotRowsLoop projectName volName contentType parentConfig description srcSnaps
          rest (applyEv st (.dbCreate rec0)) (tr ++ [.dbCreate rec0]) (reverts ++ [.volumeDBDelete key])

/-- The tail of CreateCustomVolumeFromMigration after the consistency checks
(backend.go:5175 onwards): receive and acknowledge the index header, then
create the volume row (unless refreshing) and the snapshot rows, then
delegate the payload to the driver, rolling back the rows on failure. -/
def createCustomVolumeFromMigrationTail (b : Backend) (d : DriverBehavior) (st : StorState)
    (projectName : String) (headerFrame : Frame) (args : VolumeTargetArgs) (refresh : Bool)
    (volumeConfig : VolConfig) (key : VolKey) (vol : PhysVol) (now : Nat) :
    OpOut × Option Frame :=
  let rcv := migrationIndexHeaderReceive args.indexHeaderVersion headerFrame refresh
  match rcv.1 with
  | .error e => (⟨some e, st, [.indexHeaderReceived]⟩, rcv.2)
  | .ok srcInfo =>
      let step1 : RefreshLoopOut :=
        if !refresh then
          let rec0 : VolRecord := ⟨key, false, volumeConfig, args.description, args.contentType, now, none⟩
          if st.dbVols.any (fun r0 => r0.key == key) then
            ⟨some (.msg "Volume record already exists"), st, [.indexHeaderReceived], []⟩
          else
            ⟨none, applyEv st (.dbCreate rec0), [.indexHeaderReceived, .dbCreate rec0],
              [.volumeDBDelete key]⟩
        else
          ⟨none, st, [.indexHeaderReceived], []⟩
      match step1.err with
      | some e => (⟨some e, step1.st, step1.tr⟩, rcv.2)
      | none =>
          let out :=
            migrationSnapshotRowsLoop projectName args.name args.contentType volumeConfig
              args.description srcInfo.volumeSnapshots args.snapshots step1.st step1.tr step1.reverts
          match out.err with
          | some e =>
              let res := runReverts d out.reverts out.st
              (⟨some e, res.1, out.tr ++ res.2⟩, rcv.2)
          | none =>
              match d.createVolumeFromMigration vol with
              | some e =>
                  let ev := Ev.drvCreateFromMigration vol false
                  let res := runReverts d out.reverts (applyEv out.st ev)
                  (⟨some e, res.1, out.tr ++ [ev] ++ res.2⟩, rcv.2)
              | none =>
                  let ev := Ev.drvCreateFromMigration vol true
                  (⟨none, applyEv out.st ev, out.tr ++ [ev, .authAdd key]⟩, rcv.2)

/-- CreateCustomVolumeFromMigration (backend.go:5111): status and support
gates, then the database/storage consistency check — a volume on storage
without a database record, or a record without the volume on storage, is
a hard error before anything is created or received; refresh mode is
forced off when the volume does not exist before the index header is
acknowledged; then the volume (and snapshot) rows are created and the
driver receives the payload.  Returns the operation result together with
the acknowledgement frame written. -/
def CreateCustomVolumeFromMigration (b : Backend) (d : DriverBehavior) (st : StorState)
    (projectName : String) (headerFrame : Frame) (args : VolumeTargetArgs) (now : Nat) :
    OpOut × Option Frame :=
  match isStatusReady b with
  | some e => (⟨some e, st, []⟩, none)
  | none =>
    if !(d.info.volumeTypes.contains VolType.custom) then
      (⟨some (.msg "Storage pool does not support custom volume type"), st, []⟩, none)
    else
      let key : VolKey := ⟨projectName, .plain args.name, .custom⟩
      let dbVol := st.dbVols.find? (fun r => r.key == key)
      let volumeConfig := match dbVol with | some r => r.config | none => args.config
      let vol : PhysVol := ⟨.custom, StorageVolume projectName (.plain args.name)⟩
      let volExists := st.physVols.contains vol
      if dbVol.isNone && volExists then
        (⟨some (.msg "Volume already exists on storage but not in database"), st, []⟩, none)
      else if dbVol.isSome && !volExists then
        (⟨some (.msg "Volume exists in database but not on storage"), st, []⟩, none)
      else
        -- Disable refresh mode if the volume doesn't exist yet.
        if args.refresh && !volExists then
          createCustomVolumeFromMigrationTail b d st projectName headerFrame args false
            volumeConfig key vol now
        else if !args.refresh && volExists then
          (⟨some (.msg "Cannot create volume, already exists on migration target storage"), st, []⟩, none)
        else
          createCustomVolumeFromMigrationTail b d st projectName headerFrame args args.refresh
            volumeConfig key vol now

/-- The driver-level snapshot short names of an instance volume, as reported
by vol.Snapshots (backend.go:6497). -/
def driverSnapshotNames (st : StorState) (projectName instName : String) (volType : VolType) : List String :=
  st.physVols.filterMap (fun v =>
    match v with
    | ⟨t, .vol p (.snap parent s)⟩ =>
        if t == volType && p == projectName && parent == instName then some s else none
    | _ => none)

/-- The storage-side pass of CheckInstanceBackupFileSnapshots
(backend.go:6509-6536): for each snapshot on the storage device that is
not in the backup config, fail when deleteMissing is false, otherwise
delete it from the storage device. -/
def backupSnapsDeleteLoop (d : DriverBehavior) (deleteMissing : Bool) (backupSnaps : List String)
    (projectName instName : String) (volType : VolType) :
    List String → StorState → List Ev → Option Err × StorState × List Ev
  | [], st, tr => (none, st, tr)
  | s :: rest, st, tr =>
      if backupSnaps.contains s then
        backupSnapsDeleteLoop d deleteMissing backupSnaps projectName instName volType rest st tr
      else if !deleteMissing then
        (some (.wrap "Snapshot exists on storage device but not in backup config" .backupSnapshotsMismatch), st, tr)
      else
        let v : PhysVol := ⟨volType, .vol projectName (.snap instName s)⟩
        match d.deleteVolumeSnapshot v with
        | some e => (some (.wrap "Failed to delete snapshot" e), st, tr ++ [.drvDeleteVolumeSnapshot v false])
        | none =>
            backupSnapsDeleteLoop d deleteMissing backupSnaps projectName instName volType rest
              (applyEv st (.drvDeleteVolumeSnapshot v true)) (tr ++ [.drvDeleteVolumeSnapshot v true])

/-- The config-side pass of CheckInstanceBackupFileSnapshots
(backend.go:6539-6562): keep the backup-config snapshots that exist on the
storage device; a missing one fails when deleteMissing is false and is
skipped otherwise. -/
def backupSnapsExistingLoop (deleteMissing : Bool) (driverSnaps : List String) :
    List String → Except Err (List String)
  | [] => .ok []
  | s :: rest =>
      if driverSnaps.contains s then
        match backupSnapsExistingLoop deleteMissing driverSnaps rest with
        | .error e => .error e
        | .ok l => .ok (s :: l)
      else if !deleteMissing then
        .error (.wrap "Snapshot exists in backup config but not on storage device" .backupSnapshotsMismatch)
      else
        backupSnapsExistingLoop deleteMissing driverSnaps rest

/-- CheckInstanceBackupFileSnapshots (backend.go:6470): compares the
snapshots on the storage device with those in the backup config.  With
deleteMissing false any count mismatch or one-sided snapshot is an error
wrapping ErrBackupSnapshotsMismatch; with deleteMissing true the
storage-side extras are deleted, config-side extras are skipped, and the
snapshots present on both sides are returned. -/
def CheckInstanceBackupFileSnapshots (b : Backend) (d : DriverBehavior) (st : StorState)
    (projectName instName : String) (typeIsVM : Bool) (backupSnaps : List String)
    (deleteMissing : Bool) : Except Err (List String) × StorState × List Ev :=
  let volType := if typeIsVM then VolType.vm else VolType.container
  let driverSnaps := driverSnapshotNames st projectName instName volType
  if backupSnaps.length != driverSnaps.length && !deleteMissing then
    (.error (.wrap "Snapshot count in backup config and storage device are different" .backupSnapshotsMismatch), st, [])
  else
    match backupSnapsDeleteLoop d deleteMissing backupSnaps projectName instName volType driverSnaps st [] with
    | (some e, st1, tr1) => (.error e, st1, tr1)
    | (none, st1, tr1) =>
        match backupSnapsExistingLoop deleteMissing driverSnaps backupSnaps with
        | .error e => (.error e, st1, tr1)
        | .ok existing => (.ok existing, st1, tr1)

/-! Concrete fixtures used by witnesses and counterexamples. -/

/-- A driver on which every physical operation succeeds. -/
def okDriver : DriverBehavior where
  info := ⟨[.container, .vm, .image, .custom], true, false⟩
  createVolume := fun _ => none
  deleteVolume := fun _ => none
  deleteVolumeSnapshot := fun _ => none
  setVolumeQuota := fun _ => none
  restoreVolume := fun _ => none
  refreshVolume := fun _ => none
  createVolumeFromMigration := fun _ => none
  instSnapshotDelete := fun _ => none
  fillBlockBacked := false
  fillBlockFS := "ext4"

/-- A pool that is fully created and available on this member. -/
def readyBackend : Backend := ⟨"p1", .created, .created⟩

/-- An empty volume config. -/
def cfg0 : VolConfig := ⟨false, "", ""⟩

/-- The empty storage state. -/
def emptyState : StorState := ⟨[], []⟩

/-! Theorems for the claims. -/

/-- C10: ValidateName returns an error exactly when the name contains a
slash or a rune satisfying unicode.IsSpace; in particular the empty name
is accepted. -/
theorem claim_C10_validateName :
    (∀ s : List Char, (ValidateName s).isSome ↔ ('/' ∈ s ∨ ∃ c ∈ s, unicodeIsSpace c)) ∧
      ValidateName [] = none := by
  refine ⟨fun s => ?_, rfl⟩
  unfold ValidateName
  cases h1 : s.contains '/' with
  | true =>
      simp only [h1, if_true, Option.isSome_some, true_iff]
      exact Or.inl (by simpa using h1)
  | false =>
      cases h2 : s.any unicodeIsSpace with
      | true =>
          simp only [h1, h2, Bool.false_eq_true, if_false, if_true, Option.isSome_some, true_iff]
          exact Or.inr (by simpa using h2)
      | false =>
          simp only [h1, h2, Bool.false_eq_true, if_false, Option.isSome_none, false_iff]
          rintro (hmem | ⟨c, hc, hsp⟩)
          · exact absurd hmem (by simp at h1; exact h1)
          · have h2m : ¬ ∃ c ∈ s, unicodeIsSpace c := by simpa using h2
            exact h2m ⟨c, hc, hsp⟩

/-- C2 counterexample: a pool with global status errored — which is not
created — passes isStatusReady, and CreateCustomVolume proceeds with its
side effects and succeeds instead of returning an error from the initial
readiness check. -/
theorem claim_C2_counterexample :
    isStatusReady ⟨"p1", .errored, .created⟩ = none ∧
      (CreateCustomVolume ⟨"p1", .errored, .created⟩ okDriver emptyState "default" "vol1" "" cfg0 .fs 0).err = none ∧
      (CreateCustomVolume ⟨"p1", .errored, .created⟩ okDriver emptyState "default" "vol1" "" cfg0 .fs 0).st ≠ emptyState := by
  refine ⟨rfl, rfl, ?_⟩
  decide

/-- C2 (amended): a volume operation is attempted only when the pool is
ready in the sense of isStatusReady: if the pool's global status is
pending, or its per-member LocalStatus is unavailable, each modelled
volume lifecycle operation returns the readiness error before performing
any side effect (state unchanged, no database or driver call made); a
global status of errored is not rejected by this check. -/
theorem claim_C2_amended (b : Backend) (d : DriverBehavior) (st : StorState)
    (pn sp vn sv desc fp : String) (cfg : VolConfig) (ct : ContentType) (now : Nat)
    (snaps excl vm : Bool) (hf : Frame) (args : VolumeTargetArgs)
    (h : b.status = .pending ∨ b.localStatus = .unavailable) :
    (isStatusReady b).isSome ∧
      (∀ e, isStatusReady b = some e →
        CreateCustomVolume b d st pn vn desc cfg ct now = ⟨some e, st, []⟩ ∧
        EnsureImage b d st fp vm now = ⟨some e, st, []⟩ ∧
        RefreshCustomVolume b d st pn sp vn sv snaps excl = ⟨some e, st, []⟩ ∧
        CreateCustomVolumeFromMigration b d st pn hf args now = (⟨some e, st, []⟩, none)) := by
  constructor
  · rcases h with h | h <;> simp [isStatusReady, h] <;> split <;> simp
  · intro e he
    refine ⟨?_, ?_, ?_, ?_⟩ <;> simp [CreateCustomVolume, EnsureImage, RefreshCustomVolume,
      CreateCustomVolumeFromMigration, he]

/-- C2 amended witness: the gate at work on a concrete pending pool. -/
theorem claim_C2_amended_witness :
    CreateCustomVolume ⟨"p1", .pending, .created⟩ okDriver emptyState "default" "v" "" cfg0 .fs 0 =
      ⟨some (.msg "Specified pool is not fully created"), emptyState, []⟩ :=
  ((claim_C2_amended ⟨"p1", .pending, .created⟩ okDriver emptyState "default" "" "v" "" "" ""
      cfg0 .fs 0 false false false (.respFrame ⟨200, none⟩)
      ⟨"v", "", cfg0, [], false, .fs, 1⟩ (Or.inl rfl)).2
    (.msg "Specified pool is not fully created") rfl).1

/-- A driver on which the physical volume creation fails. -/
def failCreateDriver : DriverBehavior :=
  { okDriver with createVolume := fun _ => some (.msg "boom") }

/-- Searching with an always-false predicate finds nothing. -/
theorem findq_false (l : List VolRecord) : l.find? (fun _ => false) = none := by
  induction l with
  | nil => rfl
  | cons a l ih => simpa [List.find?] using ih

/-- After deleting every row with a key, no row with that key can be found. -/
theorem findq_after_delete (l : List VolRecord) (k : VolKey) :
    (l.filter (fun r => r.key != k)).find? (fun r => r.key == k) = none := by
  rw [List.find?_eq_none]
  intro r hr
  have hp := List.of_mem_filter hr
  simpa using hp

/-- C1: when the driver's physical creation step fails after the volume DB
record was created, the accumulated compensating actions run in reverse
(LIFO) order and delete the record: afterwards VolumeDBGet for the
attempted name reports not-found and the operation returns the driver
error.  For CreateCustomVolume the one queued action deletes the row; for
EnsureImage the trace shows the two queued actions (row deletion, then
authorizer removal) executing in reverse registration order. -/
theorem claim_C1_rollback (b : Backend) (d : DriverBehavior) (st : StorState)
    (pn vn desc fp : String) (cfg : VolConfig) (ct : ContentType) (now : Nat) (vm : Bool) (e : Err)
    (hready : isStatusReady b = none) :
    (d.info.volumeTypes.contains VolType.custom = true →
      st.dbVols.any (fun r => r.key == (⟨pn, .plain vn, .custom⟩ : VolKey)) = false →
      d.createVolume ⟨.custom, .vol pn (.plain vn)⟩ = some e →
      (CreateCustomVolume b d st pn vn desc cfg ct now).err = some e ∧
      (CreateCustomVolume b d st pn vn desc cfg ct now).tr =
        [.dbCreate ⟨⟨pn, .plain vn, .custom⟩, false, cfg, desc, ct, now, none⟩,
         .drvCreateVolume ⟨.custom, .vol pn (.plain vn)⟩ false,
         .dbDelete ⟨pn, .plain vn, .custom⟩] ∧
      VolumeDBGet (CreateCustomVolume b d st pn vn desc cfg ct now).st ⟨pn, .plain vn, .custom⟩ =
        .error .notFound) ∧
    (d.info.optimizedImages = true →
      st.dbVols.find? (fun r => r.key == (⟨projectDefault, .plain fp, .image⟩ : VolKey)) = none →
      st.physVols.contains (⟨.image, .image fp⟩ : PhysVol) = false →
      d.createVolume ⟨.image, .image fp⟩ = some e →
      (EnsureImage b d st fp vm now).err = some e ∧
      (EnsureImage b d st fp vm now).tr =
        [.dbCreate ⟨⟨projectDefault, .plain fp, .image⟩, false, ⟨d.fillBlockBacked, d.fillBlockFS, ""⟩,
            "", (if vm then ContentType.block else ContentType.fs), now, none⟩,
         .authAdd ⟨projectDefault, .plain fp, .image⟩,
         .drvCreateVolume ⟨.image, .image fp⟩ false,
         .authDelete ⟨projectDefault, .plain fp, .image⟩,
         .dbDelete ⟨projectDefault, .plain fp, .image⟩] ∧
      VolumeDBGet (EnsureImage b d st fp vm now).st ⟨projectDefault, .plain fp, .image⟩ =
        .error .notFound) := by
  constructor
  · intro h2 h3 h4
    have h2m : VolType.custom ∈ d.info.volumeTypes := by simpa using h2
    have h3x : ¬ ∃ r ∈ st.dbVols, r.key = (⟨pn, .plain vn, .custom⟩ : VolKey) := by
      rintro ⟨r, hr, hk⟩
      have := List.any_eq_false.mp h3 r hr
      simp [hk] at this
    refine ⟨?_, ?_, ?_⟩ <;>
      simp [CreateCustomVolume, hready, h2m, h3x, StorageVolume, h4, runReverts, revertEv,
        applyEv, VolumeDBGet, findq_after_delete, findq_false]
  · intro h2 h3 h3p h4
    have h3pm : (⟨.image, .image fp⟩ : PhysVol) ∉ st.physVols := by simpa using h3p
    have h3x : ¬ ∃ r ∈ st.dbVols, r.key = (⟨projectDefault, .plain fp, .image⟩ : VolKey) := by
      rintro ⟨r, hr, hk⟩
      have := List.find?_eq_none.mp h3 r hr
      simp [hk] at this
    refine ⟨?_, ?_, ?_⟩ <;>
      simp [EnsureImage, hready, h2, h3, ensureImageAfterStaleCheck, h3pm, ensureImageCreateTail,
        h3x, h4, runReverts, revertEv, applyEv, VolumeDBGet, findq_after_delete, findq_false]

/-- C1 witness: rollback observed on a concrete failing driver. -/
theorem claim_C1_rollback_witness :
    (CreateCustomVolume readyBackend failCreateDriver emptyState "default" "vol1" "" cfg0 .fs 0).err =
        some (.msg "boom") ∧
      VolumeDBGet (CreateCustomVolume readyBackend failCreateDriver emptyState "default" "vol1" "" cfg0 .fs 0).st
        ⟨"default", .plain "vol1", .custom⟩ = .error .notFound ∧
      (EnsureImage readyBackend failCreateDriver emptyState "fp1" false 0).err = some (.msg "boom") ∧
      VolumeDBGet (EnsureImage readyBackend failCreateDriver emptyState "fp1" false 0).st
        ⟨projectDefault, .plain "fp1", .image⟩ = .error .notFound := by
  have h := claim_C1_rollback readyBackend failCreateDriver emptyState "default" "vol1" "" "fp1"
    cfg0 .fs 0 false (.msg "boom") rfl
  exact ⟨(h.1 rfl rfl rfl).1, (h.1 rfl rfl rfl).2.2, (h.2 rfl rfl rfl rfl).1, (h.2 rfl rfl rfl rfl).2.2⟩

/-- The database key the storage-level name of a physical volume maps back
to (instance/custom volumes are project scoped; image volumes live in the
default project under their fingerprint). -/
def keyOfPhys : PhysVol → VolKey
  | ⟨t, .vol p n⟩ => ⟨p, n, t⟩
  | ⟨t, .image fp⟩ => ⟨projectDefault, .plain fp, t⟩

/-- Database-covers-storage consistency: every physical volume on the
storage device has its metadata row. -/
def dbCoversPhys (st : StorState) : Prop :=
  ∀ v ∈ st.physVols, ∃ r ∈ st.dbVols, r.key = keyOfPhys v

/-- Well-formed naming: only image volumes use the fingerprint naming
convention on storage. -/
def physNamesWF (st : StorState) : Prop :=
  ∀ v ∈ st.physVols, ∀ fp, v.name = StorageName.image fp → v.volType = VolType.image

/-- Adding a database row preserves coverage. -/
theorem dbCoversPhys_dbAppend (db : List VolRecord) (ph : List PhysVol) (r : VolRecord)
    (h : dbCoversPhys ⟨db, ph⟩) : dbCoversPhys ⟨db ++ [r], ph⟩ := by
  intro v hv
  obtain ⟨r0, hr0, hk⟩ := h v hv
  exact ⟨r0, List.mem_append_left _ hr0, hk⟩

/-- Adding a covered physical volume preserves coverage. -/
theorem dbCoversPhys_physAppend (db : List VolRecord) (ph : List PhysVol) (v : PhysVol)
    (h : dbCoversPhys ⟨db, ph⟩) (hv : ∃ r ∈ db, r.key = keyOfPhys v) :
    dbCoversPhys ⟨db, ph ++ [v]⟩ := by
  intro w hw
  rcases List.mem_append.mp hw with hw | hw
  · exact h w hw
  · rcases List.mem_singleton.mp hw with rfl
    exact hv

/-- Removing physical volumes preserves coverage. -/
theorem dbCoversPhys_physFilter (db : List VolRecord) (ph : List PhysVol) (p : PhysVol → Bool)
    (h : dbCoversPhys ⟨db, ph⟩) : dbCoversPhys ⟨db, ph.filter p⟩ := by
  intro w hw
  exact h w (List.mem_of_mem_filter hw)

/-- Deleting the rows of a key keeps coverage as long as every physical
volume is covered by a row with a different key. -/
theorem dbCoversPhys_dbDelete (db : List VolRecord) (ph : List PhysVol) (k : VolKey)
    (h : ∀ v ∈ ph, ∃ r ∈ db, r.key = keyOfPhys v ∧ r.key ≠ k) :
    dbCoversPhys ⟨db.filter (fun r => r.key != k), ph⟩ := by
  intro v hv
  obtain ⟨r, hr, hk, hne⟩ := h v hv
  refine ⟨r, List.mem_filter.mpr ⟨hr, ?_⟩, hk⟩
  simpa using hne

/-- A physical volume whose derived key is a plain project-scoped key of a
non-image type is exactly the corresponding project-scoped volume, given
well-formed naming. -/
theorem keyOfPhys_vol_inj (v : PhysVol) (pn vn : String) (t : VolType)
    (hwf : ∀ fp, v.name = StorageName.image fp → v.volType = VolType.image)
    (ht : t ≠ VolType.image)
    (hk : keyOfPhys v = ⟨pn, .plain vn, t⟩) : v = ⟨t, .vol pn (.plain vn)⟩ := by
  rcases v with ⟨vt, nm⟩
  cases nm with
  | vol p n =>
      simp [keyOfPhys] at hk
      obtain ⟨h1, h2, h3⟩ := hk
      subst h1; subst h2; subst h3; rfl
  | image fp =>
      have := hwf fp rfl
      simp at this
      subst this
      simp [keyOfPhys] at hk
      exact absurd hk.2.2.symm ht

/-- Branch characterization of CreateCustomVolume: either it fails before
any side effect, or (with no pre-existing row) it creates the row and the
driver call fails and the row is rolled back, or everything succeeds. -/
theorem createCustomVolume_spec (b : Backend) (d : DriverBehavior) (st : StorState)
    (pn vn desc : String) (cfg : VolConfig) (ct : ContentType) (now : Nat) :
    ((CreateCustomVolume b d st pn vn desc cfg ct now).st = st ∧
      (CreateCustomVolume b d st pn vn desc cfg ct now).tr = [] ∧
      (CreateCustomVolume b d st pn vn desc cfg ct now).err.isSome = true) ∨
    (st.dbVols.any (fun r => r.key == (⟨pn, .plain vn, .custom⟩ : VolKey)) = false ∧
      ((∃ e, d.createVolume ⟨.custom, .vol pn (.plain vn)⟩ = some e ∧
          CreateCustomVolume b d st pn vn desc cfg ct now =
            ⟨some e,
              ⟨(st.dbVols ++ [(⟨⟨pn, .plain vn, .custom⟩, false, cfg, desc, ct, now, none⟩ : VolRecord)]).filter
                  (fun r => r.key != (⟨pn, .plain vn, .custom⟩ : VolKey)), st.physVols⟩,
              [.dbCreate ⟨⟨pn, .plain vn, .custom⟩, false, cfg, desc, ct, now, none⟩,
               .drvCreateVolume ⟨.custom, .vol pn (.plain vn)⟩ false,
               .dbDelete ⟨pn, .plain vn, .custom⟩]⟩) ∨
        (d.createVolume ⟨.custom, .vol pn (.plain vn)⟩ = none ∧
          CreateCustomVolume b d st pn vn desc cfg ct now =
            ⟨none,
              ⟨st.dbVols ++ [(⟨⟨pn, .plain vn, .custom⟩, false, cfg, desc, ct, now, none⟩ : VolRecord)],
                st.physVols ++ [(⟨.custom, .vol pn (.plain vn)⟩ : PhysVol)]⟩,
              [.dbCreate ⟨⟨pn, .plain vn, .custom⟩, false, cfg, desc, ct, now, none⟩,
               .drvCreateVolume ⟨.custom, .vol pn (.plain vn)⟩ true,
               .authAdd ⟨pn, .plain vn, .custom⟩]⟩))) := by
  cases hrs : isStatusReady b with
  | some e =>
      left
      unfold CreateCustomVolume
      rw [hrs]
      exact ⟨rfl, rfl, rfl⟩
  | none =>
      by_cases hsup : VolType.custom ∈ d.info.volumeTypes
      · by_cases hdup : ∃ r ∈ st.dbVols, r.key = (⟨pn, .plain vn, .custom⟩ : VolKey)
        · left
          unfold CreateCustomVolume
          rw [hrs]
          simp [hsup, hdup, StorageVolume]
        · right
          constructor
          · rw [List.any_eq_false]
            intro r hr
            simp only [beq_iff_eq]
            intro hk
            exact hdup ⟨r, hr, hk⟩
          · cases hc : d.createVolume ⟨.custom, .vol pn (.plain vn)⟩ with
            | some e =>
                left
                refine ⟨e, rfl, ?_⟩
                unfold CreateCustomVolume
                rw [hrs]
                simp [hsup, hdup, StorageVolume, hc, runReverts, revertEv, applyEv]
            | none =>
                right
                refine ⟨rfl, ?_⟩
                unfold CreateCustomVolume
                rw [hrs]
                simp [hsup, hdup, StorageVolume, hc, applyEv]
      · left
        unfold CreateCustomVolume
        rw [hrs]
        simp [hsup, StorageVolume]

/-- Branch characterization of DeleteInstance: failure before side effects,
a failing driver deletion (no state change), a successful driver deletion
followed by the row deletion, or the row deletion alone when the physical
volume is absent. -/
theorem deleteInstance_spec (b : Backend) (d : DriverBehavior) (st : StorState)
    (pn vn : String) (isSnap vmFlag : Bool) :
    ((DeleteInstance b d st pn vn isSnap vmFlag).st = st ∧
      (DeleteInstance b d st pn vn isSnap vmFlag).tr = [] ∧
      (DeleteInstance b d st pn vn isSnap vmFlag).err.isSome = true) ∨
    ((⟨(if vmFlag then VolType.vm else VolType.container), .vol pn (.plain vn)⟩ : PhysVol) ∈ st.physVols ∧
      (DeleteInstance b d st pn vn isSnap vmFlag).st = st ∧
      (DeleteInstance b d st pn vn isSnap vmFlag).tr =
        [.drvDeleteVolume ⟨(if vmFlag then VolType.vm else VolType.container), .vol pn (.plain vn)⟩ false] ∧
      (DeleteInstance b d st pn vn isSnap vmFlag).err.isSome = true) ∨
    ((⟨(if vmFlag then VolType.vm else VolType.container), .vol pn (.plain vn)⟩ : PhysVol) ∈ st.physVols ∧
      DeleteInstance b d st pn vn isSnap vmFlag =
        ⟨none,
          ⟨st.dbVols.filter
              (fun r => r.key != (⟨pn, .plain vn, (if vmFlag then VolType.vm else VolType.container)⟩ : VolKey)),
            st.physVols.filter
              (fun w => w != (⟨(if vmFlag then VolType.vm else VolType.container), .vol pn (.plain vn)⟩ : PhysVol))⟩,
          [.drvDeleteVolume ⟨(if vmFlag then VolType.vm else VolType.container), .vol pn (.plain vn)⟩ true,
           .dbDelete ⟨pn, .plain vn, (if vmFlag then VolType.vm else VolType.container)⟩,
           .authDelete ⟨pn, .plain vn, (if vmFlag then VolType.vm else VolType.container)⟩]⟩) ∨
    ((⟨(if vmFlag then VolType.vm else VolType.container), .vol pn (.plain vn)⟩ : PhysVol) ∉ st.physVols ∧
      DeleteInstance b d st pn vn isSnap vmFlag =
        ⟨none,
          ⟨st.dbVols.filter
              (fun r => r.key != (⟨pn, .plain vn, (if vmFlag then VolType.vm else VolType.container)⟩ : VolKey)),
            st.physVols⟩,
          [.dbDelete ⟨pn, .plain vn, (if vmFlag then VolType.vm else VolType.container)⟩,
           .authDelete ⟨pn, .plain vn, (if vmFlag then VolType.vm else VolType.container)⟩]⟩) := by
  unfold DeleteInstance
  by_cases hsnap : isSnap
  · left
    simp [hsnap]
  · by_cases hsnaps : (VolumeDBSnapshotsGet st pn vn (if vmFlag then VolType.vm else VolType.container)).length > 0
    · left
      simp [hsnap, hsnaps]
    · by_cases hex : (⟨(if vmFlag then VolType.vm else VolType.container), .vol pn (.plain vn)⟩ : PhysVol) ∈ st.physVols
      · cases hdel : d.deleteVolume ⟨(if vmFlag then VolType.vm else VolType.container), .vol pn (.plain vn)⟩ with
        | some e =>
            right; left
            refine ⟨hex, ?_⟩
            simp [hsnap, hsnaps, hex, hdel]
        | none =>
            right; right; left
            refine ⟨hex, ?_⟩
            simp [hsnap, hsnaps, hex, hdel, applyEv]
      · right; right; right
        refine ⟨hex, ?_⟩
        simp [hsnap, hsnaps, hex, applyEv]

/-- C9: within one Backend, CreateCustomVolume performs the metadata
creation strictly before the physical driver creation and DeleteInstance
performs the physical driver deletion strictly before the metadata
deletion (any two such events in a trace are so ordered, and the success
traces contain both); the final state is the replay of the trace, and for
every prefix of either trace the intermediate state still satisfies
"physical volume present implies database row present". -/
theorem claim_C9_order_invariant (b : Backend) (d : DriverBehavior) (st : StorState)
    (pn vn desc : String) (cfg : VolConfig) (ct : ContentType) (now : Nat)
    (isSnap vmFlag : Bool)
    (hwf : physNamesWF st) (hcov : dbCoversPhys st) :
    ((CreateCustomVolume b d st pn vn desc cfg ct now).st =
        applyEvs st (CreateCustomVolume b d st pn vn desc cfg ct now).tr) ∧
    ((DeleteInstance b d st pn vn isSnap vmFlag).st =
        applyEvs st (DeleteInstance b d st pn vn isSnap vmFlag).tr) ∧
    (∀ (i j : Nat) (r : VolRecord) (v : PhysVol) (ok : Bool), (CreateCustomVolume b d st pn vn desc cfg ct now).tr[i]? = some (Ev.dbCreate r) →
        (CreateCustomVolume b d st pn vn desc cfg ct now).tr[j]? = some (Ev.drvCreateVolume v ok) →
        i < j) ∧
    (∀ (i j : Nat) (k : VolKey) (v : PhysVol) (ok : Bool), (DeleteInstance b d st pn vn isSnap vmFlag).tr[i]? = some (Ev.dbDelete k) →
        (DeleteInstance b d st pn vn isSnap vmFlag).tr[j]? = some (Ev.drvDeleteVolume v ok) →
        j < i) ∧
    ((CreateCustomVolume b d st pn vn desc cfg ct now).err = none →
      ∃ r v, (CreateCustomVolume b d st pn vn desc cfg ct now).tr[0]? = some (Ev.dbCreate r) ∧
        (CreateCustomVolume b d st pn vn desc cfg ct now).tr[1]? = some (Ev.drvCreateVolume v true)) ∧
    ((DeleteInstance b d st pn vn isSnap vmFlag).err = none →
      (⟨(if vmFlag then VolType.vm else VolType.container), .vol pn (.plain vn)⟩ : PhysVol) ∈ st.physVols →
      ∃ v k, (DeleteInstance b d st pn vn isSnap vmFlag).tr[0]? = some (Ev.drvDeleteVolume v true) ∧
        (DeleteInstance b d st pn vn isSnap vmFlag).tr[1]? = some (Ev.dbDelete k)) ∧
    (∀ pre suf, (CreateCustomVolume b d st pn vn desc cfg ct now).tr = pre ++ suf →
      dbCoversPhys (applyEvs st pre)) ∧
    (∀ pre suf, (DeleteInstance b d st pn vn isSnap vmFlag).tr = pre ++ suf →
      dbCoversPhys (applyEvs st pre)) := by
  have hC := createCustomVolume_spec b d st pn vn desc cfg ct now
  have hD := deleteInstance_spec b d st pn vn isSnap vmFlag
  refine ⟨?_, ?_, ?_, ?_, ?_, ?_, ?_, ?_⟩
  · rcases hC with ⟨hst, htr, _⟩ | ⟨hnodup, ⟨e, hc, hout⟩ | ⟨hc, hout⟩⟩
    · rw [hst, htr]; rfl
    · rw [hout]; rfl
    · rw [hout]; rfl
  · rcases hD with ⟨hst, htr, _⟩ | ⟨hex, hst, htr, _⟩ | ⟨hex, hout⟩ | ⟨hex, hout⟩
    · rw [hst, htr]; rfl
    · rw [hst, htr]; rfl
    · rw [hout]; rfl
    · rw [hout]; rfl
  · intro i j r v ok h1 h2
    rcases hC with ⟨hst, htr, _⟩ | ⟨hnodup, ⟨e, hc, hout⟩ | ⟨hc, hout⟩⟩
    · rw [htr] at h1; simp at h1
    · rw [hout] at h1 h2
      rcases i with _ | _ | _ | i <;> rcases j with _ | _ | _ | j <;> simp at h1 h2 <;> omega
    · rw [hout] at h1 h2
      rcases i with _ | _ | _ | i <;> rcases j with _ | _ | _ | j <;> simp at h1 h2 <;> omega
  · intro i j k v ok h1 h2
    rcases hD with ⟨hst, htr, _⟩ | ⟨hex, hst, htr, _⟩ | ⟨hex, hout⟩ | ⟨hex, hout⟩
    · rw [htr] at h1; simp at h1
    · rw [htr] at h1
      rcases i with _ | _ | i <;> simp at h1
    · rw [hout] at h1 h2
      rcases i with _ | _ | _ | i <;> rcases j with _ | _ | _ | j <;> simp at h1 h2 <;> omega
    · rw [hout] at h2
      rcases j with _ | _ | _ | j <;> simp at h2
  · intro herr
    rcases hC with ⟨hst, htr, hsome⟩ | ⟨hnodup, ⟨e, hc, hout⟩ | ⟨hc, hout⟩⟩
    · rw [herr] at hsome; simp at hsome
    · rw [hout] at herr; simp at herr
    · rw [hout]
      exact ⟨_, _, rfl, rfl⟩
  · intro herr hex0
    rcases hD with ⟨hst, htr, hsome⟩ | ⟨hex, hst, htr, hsome⟩ | ⟨hex, hout⟩ | ⟨hex, hout⟩
    · rw [herr] at hsome; simp at hsome
    · rw [herr] at hsome; simp at hsome
    · rw [hout]
      exact ⟨_, _, rfl, rfl⟩
    · exact absurd hex0 hex
  · intro pre suf heq
    rcases hC with ⟨hst, htr, _⟩ | ⟨hnodup, ⟨e, hc, hout⟩ | ⟨hc, hout⟩⟩
    · rw [htr] at heq
      have hpre : pre = [] := by
        cases pre with
        | nil => rfl
        | cons a l => simp at heq
      subst hpre
      simpa [applyEvs] using hcov
    · have hnok : ∀ r0 ∈ st.dbVols, r0.key ≠ (⟨pn, .plain vn, .custom⟩ : VolKey) := by
        intro r0 hr0
        have := List.any_eq_false.mp hnodup r0 hr0
        simpa using this
      rw [hout] at heq
      rcases pre with _ | ⟨a, _ | ⟨a2, _ | ⟨a3, _ | ⟨a4, rest⟩⟩⟩⟩
      · simpa [applyEvs] using hcov
      · simp at heq
        obtain ⟨ha, -⟩ := heq
        subst ha
        simpa [applyEvs, applyEv] using
          dbCoversPhys_dbAppend st.dbVols st.physVols _ hcov
      · simp at heq
        obtain ⟨ha, ha2, -⟩ := heq
        subst ha; subst ha2
        simpa [applyEvs, applyEv] using
          dbCoversPhys_dbAppend st.dbVols st.physVols _ hcov
      · simp at heq
        obtain ⟨ha, ha2, ha3, -⟩ := heq
        subst ha; subst ha2; subst ha3
        have hstep := dbCoversPhys_dbDelete
          (st.dbVols ++ [(⟨⟨pn, .plain vn, .custom⟩, false, cfg, desc, ct, now, none⟩ : VolRecord)])
          st.physVols (⟨pn, .plain vn, .custom⟩ : VolKey) ?_
        · simpa [applyEvs, applyEv] using hstep
        · intro v hv
          obtain ⟨r0, hr0, hk0⟩ := hcov v hv
          exact ⟨r0, List.mem_append_left _ hr0, hk0, hnok r0 hr0⟩
      · simp at heq
    · rw [hout] at heq
      rcases pre with _ | ⟨a, _ | ⟨a2, _ | ⟨a3, _ | ⟨a4, rest⟩⟩⟩⟩
      · simpa [applyEvs] using hcov
      · simp at heq
        obtain ⟨ha, -⟩ := heq
        subst ha
        simpa [applyEvs, applyEv] using
          dbCoversPhys_dbAppend st.dbVols st.physVols _ hcov
      · simp at heq
        obtain ⟨ha, ha2, -⟩ := heq
        subst ha; subst ha2
        have hstep := dbCoversPhys_physAppend
          (st.dbVols ++ [(⟨⟨pn, .plain vn, .custom⟩, false, cfg, desc, ct, now, none⟩ : VolRecord)])
          st.physVols (⟨.custom, .vol pn (.plain vn)⟩ : PhysVol)
          (dbCoversPhys_dbAppend st.dbVols st.physVols _ hcov)
          ⟨⟨⟨pn, .plain vn, .custom⟩, false, cfg, desc, ct, now, none⟩,
            List.mem_append_right _ (List.mem_singleton.mpr rfl), rfl⟩
        simpa [applyEvs, applyEv] using hstep
      · simp at heq
        obtain ⟨ha, ha2, ha3, -⟩ := heq
        subst ha; subst ha2; subst ha3
        have hstep := dbCoversPhys_physAppend
          (st.dbVols ++ [(⟨⟨pn, .plain vn, .custom⟩, false, cfg, desc, ct, now, none⟩ : VolRecord)])
          st.physVols (⟨.custom, .vol pn (.plain vn)⟩ : PhysVol)
          (dbCoversPhys_dbAppend st.dbVols st.physVols _ hcov)
          ⟨⟨⟨pn, .plain vn, .custom⟩, false, cfg, desc, ct, now, none⟩,
            List.mem_append_right _ (List.mem_singleton.mpr rfl), rfl⟩
        simpa [applyEvs, applyEv] using hstep
      · simp at heq
  · intro pre suf heq
    rcases hD with ⟨hst, htr, _⟩ | ⟨hex, hst, htr, _⟩ | ⟨hex, hout⟩ | ⟨hex, hout⟩
    · rw [htr] at heq
      have hpre : pre = [] := by
        cases pre with
        | nil => rfl
        | cons a l => simp at heq
      subst hpre
      simpa [applyEvs] using hcov
    · rw [htr] at heq
      rcases pre with _ | ⟨a, _ | ⟨a2, rest⟩⟩
      · simpa [applyEvs] using hcov
      · simp at heq
        obtain ⟨ha, -⟩ := heq
        subst ha
        simpa [applyEvs, applyEv] using hcov
      · simp at heq
    · have hkne : ∀ w ∈ st.physVols,
          w ≠ (⟨(if vmFlag then VolType.vm else VolType.container), .vol pn (.plain vn)⟩ : PhysVol) →
          keyOfPhys w ≠ (⟨pn, .plain vn, (if vmFlag then VolType.vm else VolType.container)⟩ : VolKey) := by
        intro w hw hne hk
        exact hne (keyOfPhys_vol_inj w pn vn _ (hwf w hw) (by cases vmFlag <;> simp) hk)
      rw [hout] at heq
      rcases pre with _ | ⟨a, _ | ⟨a2, _ | ⟨a3, _ | ⟨a4, rest⟩⟩⟩⟩
      · simpa [applyEvs] using hcov
      · simp at heq
        obtain ⟨ha, -⟩ := heq
        subst ha
        simpa [applyEvs, applyEv] using
          dbCoversPhys_physFilter st.dbVols st.physVols _ hcov
      · simp at heq
        obtain ⟨ha, ha2, -⟩ := heq
        subst ha; subst ha2
        have hstep := dbCoversPhys_dbDelete st.dbVols
          (st.physVols.filter (fun w =>
            w != (⟨(if vmFlag then VolType.vm else VolType.container), .vol pn (.plain vn)⟩ : PhysVol)))
          (⟨pn, .plain vn, (if vmFlag then VolType.vm else VolType.container)⟩ : VolKey) ?_
        · simpa [applyEvs, applyEv] using hstep
        · intro v hv
          have hvmem := List.mem_of_mem_filter hv
          have hvne : v ≠ (⟨(if vmFlag then VolType.vm else VolType.container), .vol pn (.plain vn)⟩ : PhysVol) := by
            have := List.of_mem_filter hv
            simpa using this
          obtain ⟨r0, hr0, hk0⟩ := hcov v hvmem
          refine ⟨r0, hr0, hk0, ?_⟩
          rw [hk0]
          exact hkne v hvmem hvne
      · simp at heq
        obtain ⟨ha, ha2, ha3, -⟩ := heq
        subst ha; subst ha2; subst ha3
        have hstep := dbCoversPhys_dbDelete st.dbVols
          (st.physVols.filter (fun w =>
            w != (⟨(if vmFlag then VolType.vm else VolType.container), .vol pn (.plain vn)⟩ : PhysVol)))
          (⟨pn, .plain vn, (if vmFlag then VolType.vm else VolType.container)⟩ : VolKey) ?_
        · simpa [applyEvs, applyEv] using hstep
        · intro v hv
          have hvmem := List.mem_of_mem_filter hv
          have hvne : v ≠ (⟨(if vmFlag then VolType.vm else VolType.container), .vol pn (.plain vn)⟩ : PhysVol) := by
            have := List.of_mem_filter hv
            simpa using this
          obtain ⟨r0, hr0, hk0⟩ := hcov v hvmem
          refine ⟨r0, hr0, hk0, ?_⟩
          rw [hk0]
          exact hkne v hvmem hvne
      · simp at heq
    · have hkne0 : ∀ w ∈ st.physVols,
          keyOfPhys w ≠ (⟨pn, .plain vn, (if vmFlag then VolType.vm else VolType.container)⟩ : VolKey) := by
        intro w hw hk
        have := keyOfPhys_vol_inj w pn vn _ (hwf w hw) (by cases vmFlag <;> simp) hk
        rw [this] at hw
        exact hex hw
      rw [hout] at heq
      rcases pre with _ | ⟨a, _ | ⟨a2, _ | ⟨a3, rest⟩⟩⟩
      · simpa [applyEvs] using hcov
      · simp at heq
        obtain ⟨ha, -⟩ := heq
        subst ha
        have hstep := dbCoversPhys_dbDelete st.dbVols st.physVols
          (⟨pn, .plain vn, (if vmFlag then VolType.vm else VolType.container)⟩ : VolKey) ?_
        · simpa [applyEvs, applyEv] using hstep
        · intro v hv
          obtain ⟨r0, hr0, hk0⟩ := hcov v hv
          refine ⟨r0, hr0, hk0, ?_⟩
          rw [hk0]
          exact hkne0 v hv
      · simp at heq
        obtain ⟨ha, ha2, -⟩ := heq
        subst ha; subst ha2
        have hstep := dbCoversPhys_dbDelete st.dbVols st.physVols
          (⟨pn, .plain vn, (if vmFlag then VolType.vm else VolType.container)⟩ : VolKey) ?_
        · simpa [applyEvs, applyEv] using hstep
        · intro v hv
          obtain ⟨r0, hr0, hk0⟩ := hcov v hv
          refine ⟨r0, hr0, hk0, ?_⟩
          rw [hk0]
          exact hkne0 v hv
      · simp at heq

/-- C9 witness: the ordering/invariant conclusions at a concrete state. -/
theorem claim_C9_order_invariant_witness :
    (CreateCustomVolume readyBackend okDriver emptyState "default" "v1" "" cfg0 .fs 0).st =
      applyEvs emptyState (CreateCustomVolume readyBackend okDriver emptyState "default" "v1" "" cfg0 .fs 0).tr :=
  (claim_C9_order_invariant readyBackend okDriver emptyState "default" "v1" "" cfg0 .fs 0 false false
    (fun v hv => absurd hv (List.not_mem_nil v))
    (fun v hv => absurd hv (List.not_mem_nil v))).1

/-! Supporting development for the refresh reconciliation (C3). -/

/-- The record-level view of the deletion pass: the index-based loop of the
source resolves each index into the marked target snapshot record. -/
def recordDeleteLoop (b : Backend) (d : DriverBehavior) (pn : String) :
    List VolRecord → StorState → List Ev → Option Err × StorState × List Ev
  | [], st, tr => (none, st, tr)
  | r :: rest, st, tr =>
      let del := DeleteCustomVolumeSnapshot b d st pn r.key.name
      match del.err with
      | some e => (some e, del.st, tr ++ del.tr)
      | none => recordDeleteLoop b d pn rest del.st (tr ++ del.tr)

/-- Resolving the enumerated-and-filtered indexes of a mapped list back
through the original list yields the filtered original list. -/
theorem filterMap_get_enumFrom (f : VolRecord → ComparableSnapshot)
    (p : ComparableSnapshot → Bool) :
    ∀ (rs pre : List VolRecord),
      ((((rs.map f).enumFrom pre.length).filter (fun q => p q.2)).map (fun q => q.1)).filterMap
          (fun i => (pre ++ rs).get? i) = rs.filter (fun r => p (f r)) := by
  intro rs
  induction rs with
  | nil => intro pre; simp
  | cons r rest ih =>
      intro pre
      by_cases hp : p (f r)
      · have hget : (pre ++ r :: rest).get? pre.length = some r := by
          rw [List.get?_append_right (Nat.le_refl _)]
          simp
        have hrw : pre ++ r :: rest = (pre ++ [r]) ++ rest := by simp
        have ihx := ih (pre ++ [r])
        rw [hrw]
        simp only [List.map_cons, List.enumFrom_cons, List.filter_cons, hp, if_true,
          List.map_cons, List.filterMap_cons]
        rw [← hrw, hget, hrw]
        simp only [List.length_append, List.length_singleton] at ihx
        simpa [hp, Nat.add_comm] using ihx
      · have hrw : pre ++ r :: rest = (pre ++ [r]) ++ rest := by simp
        have ihx := ih (pre ++ [r])
        simp only [List.map_cons, List.enumFrom_cons, List.filter_cons, hp, if_false]
        rw [hrw]
        simp only [List.length_append, List.length_singleton] at ihx
        simp only [Bool.false_eq_true] at *
        simpa [hp, Nat.add_comm] using ihx

/-- The index-based deletion pass equals the record-level pass on the marked
records. -/
theorem refreshDeleteLoop_eq_record (b : Backend) (d : DriverBehavior) (pn : String)
    (f : VolRecord → ComparableSnapshot) (p : ComparableSnapshot → Bool) :
    ∀ (rs pre : List VolRecord) (st : StorState) (tr : List Ev),
      refreshDeleteLoop b d pn (pre ++ rs)
          ((((rs.map f).enumFrom pre.length).filter (fun q => p q.2)).map (fun q => q.1)) st tr =
        recordDeleteLoop b d pn (rs.filter (fun r => p (f r))) st tr := by
  intro rs
  induction rs with
  | nil => intro pre st tr; simp [refreshDeleteLoop, recordDeleteLoop]
  | cons r rest ih =>
      intro pre st tr
      have hget : (pre ++ r :: rest).get? pre.length = some r := by
        rw [List.get?_append_right (Nat.le_refl _)]
        simp
      have hrw : pre ++ r :: rest = (pre ++ [r]) ++ rest := by simp
      have ihx := ih (pre ++ [r])
      simp only [List.length_append, List.length_singleton] at ihx
      by_cases hp : p (f r)
      · simp only [List.map_cons, List.enumFrom_cons, List.filter_cons, hp, if_true, List.map_cons]
        rw [refreshDeleteLoop, hget]
        simp only [List.filter_cons, hp, if_true, recordDeleteLoop]
        cases hdel : (DeleteCustomVolumeSnapshot b d st pn r.key.name).err with
        | some e => rfl
        | none =>
            rw [hrw]
            simpa [Nat.add_comm] using
              ihx (DeleteCustomVolumeSnapshot b d st pn r.key.name).st
                (tr ++ (DeleteCustomVolumeSnapshot b d st pn r.key.name).tr)
      · simp only [List.map_cons, List.enumFrom_cons, List.filter_cons, hp, if_false]
        simp only [List.filter_cons, hp, Bool.false_eq_true, if_false]
        rw [hrw]
        simpa [Nat.add_comm] using ihx st tr

/-- Key equality test is symmetric. -/
theorem volKey_beq_comm (a b : VolKey) : (a == b) = (b == a) := by
  by_cases h : a = b
  · subst h; rfl
  · have h2 : ¬ b = a := fun hh => h hh.symm
    simp [h, h2]

/-- Effect of the record-level deletion pass when every driver deletion
succeeds: each marked snapshot's database row and physical snapshot are
removed; the loop returns success. -/
theorem recordDeleteLoop_spec (b : Backend) (d : DriverBehavior) (pn vn : String)
    (hdel : ∀ v, d.deleteVolumeSnapshot v = none) :
    ∀ (marked : List VolRecord) (st : StorState) (tr : List Ev),
      (∀ m ∈ marked, ∃ s, m.key = (⟨pn, .snap vn s, .custom⟩ : VolKey)) →
      (∀ m ∈ marked, ∃ r0 ∈ st.dbVols, r0.key = m.key) →
      ((marked.map (fun m => m.key)).Nodup) →
      ∃ T, recordDeleteLoop b d pn marked st tr =
        (none,
          ⟨st.dbVols.filter (fun r0 => !(marked.any (fun m => r0.key == m.key))),
           st.physVols.filter (fun w => !(marked.any (fun m =>
             w == (⟨.custom, .vol pn m.key.name⟩ : PhysVol))))⟩,
          tr ++ T) := by
  intro marked
  induction marked with
  | nil =>
      intro st tr hshape hpresent hnd
      exact ⟨[], by simp [recordDeleteLoop]⟩
  | cons m rest ih =>
      intro st tr hshape hpresent hnd
      obtain ⟨s, hks⟩ := hshape m (List.mem_cons_self m rest)
      obtain ⟨r0, hr0, hr0k⟩ := hpresent m (List.mem_cons_self m rest)
      have hname : m.key.name = VolName.snap vn s := by rw [hks]
      have hfind : ∃ r1, st.dbVols.find? (fun r => r.key == m.key) = some r1 := by
        have : (st.dbVols.find? (fun r => r.key == m.key)).isSome := by
          rw [List.find?_isSome]
          exact ⟨r0, hr0, by simp [hr0k]⟩
        exact Option.isSome_iff_exists.mp this
      obtain ⟨r1, hfind⟩ := hfind
      have hkeyform : (⟨pn, VolName.snap vn s, .custom⟩ : VolKey) = m.key := by rw [hks]
      have hdelout :
          DeleteCustomVolumeSnapshot b d st pn m.key.name =
            ⟨none,
              ⟨st.dbVols.filter (fun r => r.key != m.key),
               st.physVols.filter (fun w => w != (⟨.custom, .vol pn m.key.name⟩ : PhysVol))⟩,
              (DeleteCustomVolumeSnapshot b d st pn m.key.name).tr⟩ := by
        by_cases hmem : (⟨.custom, .vol pn (VolName.snap vn s)⟩ : PhysVol) ∈ st.physVols
        · have hmemb : st.physVols.contains (⟨.custom, .vol pn (VolName.snap vn s)⟩ : PhysVol) = true := by
            simpa using hmem
          simp only [DeleteCustomVolumeSnapshot, hname, StorageVolume, hkeyform, VolumeDBGet,
            hfind, hmemb, if_true, hdel, applyEv]
        · have hmemb : st.physVols.contains (⟨.custom, .vol pn (VolName.snap vn s)⟩ : PhysVol) = false := by
            simpa using hmem
          have hself : st.physVols.filter
              (fun w => w != (⟨.custom, .vol pn (VolName.snap vn s)⟩ : PhysVol)) = st.physVols := by
            rw [List.filter_eq_self]
            intro w hw
            simp only [bne_iff_ne, ne_eq]
            intro hweq
            rw [hweq] at hw
            exact hmem hw
          simp only [DeleteCustomVolumeSnapshot, hname, StorageVolume, hkeyform, VolumeDBGet,
            hfind, hmemb, Bool.false_eq_true, if_false, applyEv, hself]
      have hstep : recordDeleteLoop b d pn (m :: rest) st tr =
          recordDeleteLoop b d pn rest
            ⟨st.dbVols.filter (fun r => r.key != m.key),
             st.physVols.filter (fun w => w != (⟨.custom, .vol pn m.key.name⟩ : PhysVol))⟩
            (tr ++ (DeleteCustomVolumeSnapshot b d st pn m.key.name).tr) := by
        rw [recordDeleteLoop]
        rw [hdelout]
      rw [hstep]
      have hndtail : ((rest.map (fun m => m.key)).Nodup) := by
        simpa using hnd.of_cons
      have hheadni : m.key ∉ rest.map (fun m => m.key) := by
        have := hnd
        rw [List.map_cons] at this
        exact (List.nodup_cons.mp this).1
      obtain ⟨T', hT'⟩ := ih
        ⟨st.dbVols.filter (fun r => r.key != m.key),
         st.physVols.filter (fun w => w != (⟨.custom, .vol pn m.key.name⟩ : PhysVol))⟩
        (tr ++ (DeleteCustomVolumeSnapshot b d st pn m.key.name).tr)
        (fun m2 hm2 => hshape m2 (List.mem_cons_of_mem m hm2))
        (by
          intro m2 hm2
          obtain ⟨r2, hr2, hr2k⟩ := hpresent m2 (List.mem_cons_of_mem m hm2)
          refine ⟨r2, List.mem_filter.mpr ⟨hr2, ?_⟩, hr2k⟩
          have hkne : m2.key ≠ m.key := by
            intro hEq
            exact hheadni (hEq ▸ List.mem_map_of_mem (fun m => m.key) hm2)
          rw [hr2k]
          simpa using hkne)
        hndtail
      refine ⟨(DeleteCustomVolumeSnapshot b d st pn m.key.name).tr ++ T', ?_⟩
      rw [hT']
      have hdbeq :
          (st.dbVols.filter (fun r => r.key != m.key)).filter
              (fun r0 => !(rest.any (fun m2 => r0.key == m2.key))) =
            st.dbVols.filter (fun r0 => !((m :: rest).any (fun m2 => r0.key == m2.key))) := by
        rw [List.filter_filter]
        apply List.filter_congr
        intro r0 _
        simp [List.any_cons, Bool.not_or, bne, volKey_beq_comm r0.key m.key, Bool.and_comm]
      have hpheq :
          (st.physVols.filter (fun w => w != (⟨.custom, .vol pn m.key.name⟩ : PhysVol))).filter
              (fun w => !(rest.any (fun m2 => w == (⟨.custom, .vol pn m2.key.name⟩ : PhysVol)))) =
            st.physVols.filter (fun w => !((m :: rest).any (fun m2 =>
              w == (⟨.custom, .vol pn m2.key.name⟩ : PhysVol)))) := by
        rw [List.filter_filter]
        apply List.filter_congr
        intro w _
        simp [List.any_cons, Bool.not_or, bne, Bool.and_comm]
      rw [hdbeq, hpheq]
      simp

/-- The snapshot row the refresh creation pass writes for a synced source
snapshot record. -/
def mkSnapRec (pn vn : String) (ct : ContentType) (r : VolRecord) : VolRecord :=
  ⟨⟨pn, GetSnapshotVolumeName vn (snapShortName r), .custom⟩, true, r.config, r.description, ct,
    r.creationDate, r.expiryDate⟩

/-- Effect of the snapshot database-creation pass when no key collides:
the rows for the synced snapshots are appended, with matching compensating
deletions queued. -/
theorem refreshCreateLoop_spec (pn vn : String) (ct : ContentType) :
    ∀ (rs : List VolRecord) (st : StorState) (tr : List Ev) (reverts : List RevertAction),
      (∀ r ∈ rs, ∀ r0 ∈ st.dbVols,
        r0.key ≠ (⟨pn, GetSnapshotVolumeName vn (snapShortName r), .custom⟩ : VolKey)) →
      ((rs.map snapShortName).Nodup) →
      refreshCreateLoop pn vn ct rs st tr reverts =
        ⟨none, ⟨st.dbVols ++ rs.map (mkSnapRec pn vn ct), st.physVols⟩,
          tr ++ rs.map (fun r => Ev.dbCreate (mkSnapRec pn vn ct r)),
          reverts ++ rs.map (fun r => RevertAction.volumeDBDelete
            ⟨pn, GetSnapshotVolumeName vn (snapShortName r), .custom⟩)⟩ := by
  intro rs
  induction rs with
  | nil => intro st tr reverts hfree hnd; simp [refreshCreateLoop]
  | cons r rest ih =>
      intro st tr reverts hfree hnd
      have hanyf : st.dbVols.any
          (fun r0 => r0.key == (⟨pn, GetSnapshotVolumeName vn (snapShortName r), .custom⟩ : VolKey)) = false := by
        rw [List.any_eq_false]
        intro r0 hr0
        have := hfree r (List.mem_cons_self r rest) r0 hr0
        simpa using this
      rw [refreshCreateLoop, hanyf]
      simp only [Bool.false_eq_true, if_false, applyEv]
      have hndtail : ((rest.map snapShortName).Nodup) := by simpa using hnd.of_cons
      have hheadni : snapShortName r ∉ rest.map snapShortName := by
        have := hnd
        rw [List.map_cons] at this
        exact (List.nodup_cons.mp this).1
      rw [ih _ _ _
        (by
          intro r2 hr2 r0 hr0
          rcases List.mem_append.mp hr0 with hr0 | hr0
          · exact hfree r2 (List.mem_cons_of_mem r hr2) r0 hr0
          · rcases List.mem_singleton.mp hr0 with rfl
            simp only [GetSnapshotVolumeName, ne_eq, VolKey.mk.injEq, VolName.snap.injEq]
            intro ⟨h1, ⟨h2, h3⟩, h4⟩
            exact hheadni (h3 ▸ List.mem_map_of_mem snapShortName hr2))
        hndtail]
      simp [mkSnapRec, GetSnapshotVolumeName]

/-- Membership characterization of the snapshot row query. -/
theorem mem_volumeDBSnapshotsGet (st : StorState) (pn vn : String) (t : VolType) (r : VolRecord) :
    r ∈ VolumeDBSnapshotsGet st pn vn t ↔
      r ∈ st.dbVols ∧ r.isSnapshot = true ∧ r.key.project = pn ∧ r.key.volType = t ∧
        ∃ s, r.key.name = VolName.snap vn s := by
  unfold VolumeDBSnapshotsGet
  rw [List.mem_filter]
  constructor
  · rintro ⟨hmem, hp⟩
    refine ⟨hmem, ?_⟩
    cases hn : r.key.name with
    | plain n => rw [hn] at hp; simp at hp
    | snap parent s =>
        rw [hn] at hp
        simp only [Bool.and_eq_true, beq_iff_eq] at hp
        exact ⟨hp.1.1.1, hp.1.1.2, hp.1.2, s, by rw [hp.2]⟩
  · rintro ⟨hmem, hsnap, hproj, htype, s, hname⟩
    refine ⟨hmem, ?_⟩
    rw [hname]
    simp [hsnap, hproj, htype]

/-- The second component of an enumerated entry is a member of the list. -/
theorem snd_mem_of_mem_enumFrom {α : Type} :
    ∀ (l : List α) (n : Nat) (q : Nat × α), q ∈ l.enumFrom n → q.2 ∈ l := by
  intro l
  induction l with
  | nil => intro n q h; simp [List.enumFrom] at h
  | cons a rest ih =>
      intro n q h
      rw [List.enumFrom_cons] at h
      rcases List.mem_cons.mp h with h | h
      · rw [h]; exact List.mem_cons_self a rest
      · exact List.mem_cons_of_mem a (ih (n + 1) q h)

/-- Filtering by a predicate implied by the search predicate does not change
the search result. -/
theorem find?_filter_of_imp (p q : VolRecord → Bool) (h : ∀ x, p x = true → q x = true) :
    ∀ (l : List VolRecord), (l.filter q).find? p = l.find? p := by
  intro l
  induction l with
  | nil => rfl
  | cons a rest ih =>
      by_cases hq : q a
      · by_cases hp : p a
        · simp [List.filter_cons, hq, List.find?_cons, hp]
        · simp [List.filter_cons, hq, List.find?_cons, hp, ih]
      · have hp : p a = false := by
          rcases Bool.eq_false_or_eq_true (p a) with h1 | h0
          · exact absurd (h a h1) (by simpa using hq)
          · exact h0
        simp [List.filter_cons, hq, List.find?_cons, hp, ih]

/-- filterMap by an everywhere-some function is a map. -/
theorem filterMap_some_eq_map {α β : Type} (g : α → β) :
    ∀ (l : List α), l.filterMap (fun a => some (g a)) = l.map g := by
  intro l
  induction l with
  | nil => rfl
  | cons a rest ih => simp [List.filterMap_cons, ih]

/-- Full-run characterization of the same-pool snapshot refresh: under a
ready pool, cooperating driver, an existing non-ISO source volume, unique
database keys and collision-free sync targets, the refresh succeeds; the
target snapshots missing from the source are removed from database and
storage, rows and physical snapshots for the source snapshots missing
from the target are added, and the driver refresh is invoked on exactly
those missing snapshots. -/
theorem refreshCustomVolume_run (b : Backend) (d : DriverBehavior) (st : StorState)
    (pn sp vn sv : String) (excl : Bool) (srcVolRec : VolRecord)
    (hready : isStatusReady b = none)
    (hsup : VolType.custom ∈ d.info.volumeTypes)
    (hdelOK : ∀ v, d.deleteVolumeSnapshot v = none)
    (hrefOK : ∀ v, d.refreshVolume v = none)
    (hspne : (sp == "") = false)
    (hsrcfind : st.dbVols.find? (fun r => r.key == (⟨sp, .plain sv, .custom⟩ : VolKey)) = some srcVolRec)
    (hiso : (srcVolRec.contentType == ContentType.iso) = false)
    (hkeysND : (st.dbVols.map (fun r => r.key)).Nodup)
    (hfree : ∀ r ∈ (VolumeDBSnapshotsGet st sp sv .custom).filter
        (fun r => !(((VolumeDBSnapshotsGet st pn vn .custom).map snapShortName).contains (snapShortName r))),
      ∀ r0 ∈ st.dbVols,
        r0.key ≠ (⟨pn, GetSnapshotVolumeName vn (snapShortName r), .custom⟩ : VolKey)) :
    ∃ T, RefreshCustomVolume b d st pn sp vn sv true excl =
      ⟨none,
        ⟨st.dbVols.filter (fun r0 =>
            !(((VolumeDBSnapshotsGet st pn vn .custom).filter
                (fun r => !(((VolumeDBSnapshotsGet st sp sv .custom).map snapShortName).contains
                  (snapShortName r)))).any (fun m => r0.key == m.key))) ++
          ((VolumeDBSnapshotsGet st sp sv .custom).filter
              (fun r => !(((VolumeDBSnapshotsGet st pn vn .custom).map snapShortName).contains
                (snapShortName r)))).map (mkSnapRec pn vn srcVolRec.contentType),
         st.physVols.filter (fun w =>
            !(((VolumeDBSnapshotsGet st pn vn .custom).filter
                (fun r => !(((VolumeDBSnapshotsGet st sp sv .custom).map snapShortName).contains
                  (snapShortName r)))).any (fun m =>
              w == (⟨.custom, .vol pn m.key.name⟩ : PhysVol)))) ++
          ((VolumeDBSnapshotsGet st sp sv .custom).filter
              (fun r => !(((VolumeDBSnapshotsGet st pn vn .custom).map snapShortName).contains
                (snapShortName r)))).map
            (fun r => (⟨.custom, .vol pn (.snap vn (snapShortName r))⟩ : PhysVol))⟩,
        T ++ ((VolumeDBSnapshotsGet st sp sv .custom).filter
            (fun r => !(((VolumeDBSnapshotsGet st pn vn .custom).map snapShortName).contains
              (snapShortName r)))).map
          (fun r => Ev.dbCreate (mkSnapRec pn vn srcVolRec.contentType r)) ++
        [Ev.drvRefreshVolume ⟨.custom, .vol pn (.plain vn)⟩
          (((VolumeDBSnapshotsGet st sp sv .custom).filter
              (fun r => !(((VolumeDBSnapshotsGet st pn vn .custom).map snapShortName).contains
                (snapShortName r)))).map
            (fun r => GetSnapshotVolumeName sv (snapShortName r))) true]⟩ := by
  have hsupb : d.info.volumeTypes.contains VolType.custom = true := by simpa using hsup
  have hsrcSub : (VolumeDBSnapshotsGet st sp sv .custom).Sublist st.dbVols := List.filter_sublist _
  have htgtSub : (VolumeDBSnapshotsGet st pn vn .custom).Sublist st.dbVols := List.filter_sublist _
  have hmarkedSub :
      ((VolumeDBSnapshotsGet st pn vn .custom).filter
        (fun r => !(((VolumeDBSnapshotsGet st sp sv .custom).map snapShortName).contains
          (snapShortName r)))).Sublist st.dbVols :=
    (List.filter_sublist _).trans htgtSub
  have hsyncSub :
      ((VolumeDBSnapshotsGet st sp sv .custom).filter
        (fun r => !(((VolumeDBSnapshotsGet st pn vn .custom).map snapShortName).contains
          (snapShortName r)))).Sublist st.dbVols :=
    (List.filter_sublist _).trans hsrcSub
  -- marked preconditions
  have hmsh : ∀ m ∈ (VolumeDBSnapshotsGet st pn vn .custom).filter
      (fun r => !(((VolumeDBSnapshotsGet st sp sv .custom).map snapShortName).contains
        (snapShortName r))),
      ∃ s, m.key = (⟨pn, .snap vn s, .custom⟩ : VolKey) := by
    intro m hm
    obtain ⟨-, -, hproj, htype, s, hname⟩ :=
      (mem_volumeDBSnapshotsGet st pn vn .custom m).mp (List.mem_of_mem_filter hm)
    exact ⟨s, by rw [← hproj, ← htype, ← hname]⟩
  have hmpres : ∀ m ∈ (VolumeDBSnapshotsGet st pn vn .custom).filter
      (fun r => !(((VolumeDBSnapshotsGet st sp sv .custom).map snapShortName).contains
        (snapShortName r))),
      ∃ r0 ∈ st.dbVols, r0.key = m.key := by
    intro m hm
    exact ⟨m, hmarkedSub.subset hm, rfl⟩
  have hmnd : (((VolumeDBSnapshotsGet st pn vn .custom).filter
      (fun r => !(((VolumeDBSnapshotsGet st sp sv .custom).map snapShortName).contains
        (snapShortName r)))).map (fun m => m.key)).Nodup :=
    hkeysND.sublist (hmarkedSub.map _)
  -- sync Nodup of short names
  have hsrcKeyND : ((VolumeDBSnapshotsGet st sp sv .custom).map (fun r => r.key)).Nodup :=
    hkeysND.sublist (hsrcSub.map _)
  have hsrcShortND : ((VolumeDBSnapshotsGet st sp sv .custom).map snapShortName).Nodup := by
    have hshapes : ∀ k ∈ (VolumeDBSnapshotsGet st sp sv .custom).map (fun r => r.key),
        ∃ s, k = (⟨sp, .snap sv s, .custom⟩ : VolKey) := by
      intro k hk
      obtain ⟨r, hr, hrk⟩ := List.mem_map.mp hk
      obtain ⟨-, -, hproj, htype, s, hname⟩ := (mem_volumeDBSnapshotsGet st sp sv .custom r).mp hr
      exact ⟨s, by rw [← hrk, ← hproj, ← htype, ← hname]⟩
    have hinj : ∀ k1 ∈ (VolumeDBSnapshotsGet st sp sv .custom).map (fun r => r.key),
        ∀ k2 ∈ (VolumeDBSnapshotsGet st sp sv .custom).map (fun r => r.key),
        (GetParentAndSnapshotName k1.name).2.1 = (GetParentAndSnapshotName k2.name).2.1 → k1 = k2 := by
      intro k1 h1 k2 h2 hEq
      obtain ⟨s1, hk1⟩ := hshapes k1 h1
      obtain ⟨s2, hk2⟩ := hshapes k2 h2
      rw [hk1, hk2]
      rw [hk1, hk2] at hEq
      simp only [GetParentAndSnapshotName] at hEq
      rw [hEq]
    have := hsrcKeyND.map_on hinj
    rw [List.map_map] at this
    exact this
  have hsyncShortND : (((VolumeDBSnapshotsGet st sp sv .custom).filter
      (fun r => !(((VolumeDBSnapshotsGet st pn vn .custom).map snapShortName).contains
        (snapShortName r)))).map snapShortName).Nodup :=
    hsrcShortND.sublist ((List.filter_sublist _).map _)
  -- the delete pass
  obtain ⟨T, hT⟩ := recordDeleteLoop_spec b d pn vn hdelOK
    ((VolumeDBSnapshotsGet st pn vn .custom).filter
      (fun r => !(((VolumeDBSnapshotsGet st sp sv .custom).map snapShortName).contains
        (snapShortName r)))) st [] hmsh hmpres hmnd
  have hc2 : (CompareSnapshots
      ((VolumeDBSnapshotsGet st sp sv .custom).map
        (fun r => (⟨snapShortName r, r.creationDate⟩ : ComparableSnapshot)))
      ((VolumeDBSnapshotsGet st pn vn .custom).map
        (fun r => (⟨snapShortName r, r.creationDate⟩ : ComparableSnapshot))) excl).2 =
      ((((VolumeDBSnapshotsGet st pn vn .custom).map
          (fun r => (⟨snapShortName r, r.creationDate⟩ : ComparableSnapshot))).enumFrom 0).filter
        (fun q => !(((VolumeDBSnapshotsGet st sp sv .custom).map snapShortName).contains q.2.name))).map
        (fun q => q.1) := by
    simp only [CompareSnapshots, List.map_map, List.enum]
    rfl
  have hc1 : (CompareSnapshots
      ((VolumeDBSnapshotsGet st sp sv .custom).map
        (fun r => (⟨snapShortName r, r.creationDate⟩ : ComparableSnapshot)))
      ((VolumeDBSnapshotsGet st pn vn .custom).map
        (fun r => (⟨snapShortName r, r.creationDate⟩ : ComparableSnapshot))) excl).1 =
      ((((VolumeDBSnapshotsGet st sp sv .custom).map
          (fun r => (⟨snapShortName r, r.creationDate⟩ : ComparableSnapshot))).enumFrom 0).filter
        (fun q => !(((VolumeDBSnapshotsGet st pn vn .custom).map snapShortName).contains q.2.name))).map
        (fun q => q.1) := by
    simp only [CompareSnapshots, List.map_map, List.enum]
    rfl
  have hrec := refreshDeleteLoop_eq_record b d pn
    (fun r => (⟨snapShortName r, r.creationDate⟩ : ComparableSnapshot))
    (fun c => !(((VolumeDBSnapshotsGet st sp sv .custom).map snapShortName).contains c.name))
    (VolumeDBSnapshotsGet st pn vn .custom) [] st []
  simp only [List.nil_append, List.length_nil] at hrec
  have hfm := filterMap_get_enumFrom
    (fun r => (⟨snapShortName r, r.creationDate⟩ : ComparableSnapshot))
    (fun c => !(((VolumeDBSnapshotsGet st pn vn .custom).map snapShortName).contains c.name))
    (VolumeDBSnapshotsGet st sp sv .custom) []
  simp only [List.nil_append, List.length_nil] at hfm
  have hfm2 : ((((((VolumeDBSnapshotsGet st sp sv .custom).map
        (fun r => (⟨snapShortName r, r.creationDate⟩ : ComparableSnapshot))).enumFrom 0).filter
        (fun q => !(((VolumeDBSnapshotsGet st pn vn .custom).map snapShortName).contains q.2.name))).map
        (fun q => q.1)).filterMap (fun i => (VolumeDBSnapshotsGet st sp sv .custom).get? i)) =
      (VolumeDBSnapshotsGet st sp sv .custom).filter
        (fun r => !(((VolumeDBSnapshotsGet st pn vn .custom).map snapShortName).contains
          (snapShortName r))) := hfm
  unfold RefreshCustomVolume
  rw [hready]
  simp only [hspne, Bool.false_eq_true, if_false, VolumeDBGet, hsrcfind, hiso, hsupb,
    Bool.not_true, if_true]
  rw [hc2, hrec, hT]
  rw [hc1, hfm2]
  simp only []
  rw [refreshCreateLoop_spec pn vn srcVolRec.contentType _ _ _ _
    (by
      intro r hr r0 hr0
      have hr0' := List.mem_of_mem_filter hr0
      exact hfree r hr r0 hr0')
    hsyncShortND]
  simp only [hrefOK, applyEv, StorageVolume, GetSnapshotVolumeName, List.filterMap_map,
    Function.comp_def, if_true]
  refine ⟨T, ?_⟩
  rw [filterMap_some_eq_map]
  simp [mkSnapRec, GetSnapshotVolumeName, StorageVolume, List.append_assoc]

/-- The created snapshot row keeps the source snapshot's short name. -/
theorem snapShortName_mkSnapRec (pn vn : String) (ct : ContentType) (r : VolRecord) :
    snapShortName (mkSnapRec pn vn ct r) = snapShortName r := rfl

/-- Boolean negation characterised as equality with false. -/
theorem bnot_eq_true_iff (b : Bool) : (!b) = true ↔ b = false := by
  cases b <;> simp

/-- Records with equal keys in a duplicate-free database are equal. -/
theorem dbKey_inj (l : List VolRecord) (hND : (l.map (fun r => r.key)).Nodup)
    (r1 r2 : VolRecord) (h1 : r1 ∈ l) (h2 : r2 ∈ l) (hk : r1.key = r2.key) : r1 = r2 :=
  List.inj_on_of_nodup_map hND h1 h2 hk

/-- C3: on a same-pool RefreshCustomVolume with snapshots enabled, every
target snapshot whose name is absent from the source snapshot list is
deleted from the target (no database row with its key remains, and its
physical snapshot is gone), only the source snapshots the target lacks
are handed to the driver RefreshVolume for transfer, and the refreshed
target's snapshot name set equals the source's; consequently a second
refresh from the unchanged source is idempotent: it succeeds, transfers
no snapshots, deletes none, and leaves the state identical. -/
theorem claim_C3_refresh_idempotent (b : Backend) (d : DriverBehavior) (st : StorState)
    (pn sp vn sv : String) (excl : Bool) (srcVolRec : VolRecord)
    (hready : isStatusReady b = none)
    (hsup : VolType.custom ∈ d.info.volumeTypes)
    (hdelOK : ∀ v, d.deleteVolumeSnapshot v = none)
    (hrefOK : ∀ v, d.refreshVolume v = none)
    (hspne : (sp == "") = false)
    (hsrcfind : st.dbVols.find? (fun r => r.key == (⟨sp, .plain sv, .custom⟩ : VolKey)) = some srcVolRec)
    (hiso : (srcVolRec.contentType == ContentType.iso) = false)
    (hne : ¬(sp = pn ∧ sv = vn))
    (hkeysND : (st.dbVols.map (fun r => r.key)).Nodup)
    (hsnapWF : ∀ r ∈ st.dbVols, ∀ p s, r.key.name = VolName.snap p s → r.isSnapshot = true) :
    (RefreshCustomVolume b d st pn sp vn sv true excl).err = none ∧
    (∀ r ∈ VolumeDBSnapshotsGet st pn vn .custom,
      snapShortName r ∉ (VolumeDBSnapshotsGet st sp sv .custom).map snapShortName →
      (∀ r0 ∈ (RefreshCustomVolume b d st pn sp vn sv true excl).st.dbVols, r0.key ≠ r.key) ∧
      (⟨.custom, .vol pn r.key.name⟩ : PhysVol) ∉
        (RefreshCustomVolume b d st pn sp vn sv true excl).st.physVols) ∧
    (Ev.drvRefreshVolume ⟨.custom, .vol pn (.plain vn)⟩
        (((VolumeDBSnapshotsGet st sp sv .custom).filter
            (fun r => !(((VolumeDBSnapshotsGet st pn vn .custom).map snapShortName).contains
              (snapShortName r)))).map
          (fun r => GetSnapshotVolumeName sv (snapShortName r))) true
      ∈ (RefreshCustomVolume b d st pn sp vn sv true excl).tr) ∧
    (∀ s, s ∈ (VolumeDBSnapshotsGet (RefreshCustomVolume b d st pn sp vn sv true excl).st
          pn vn .custom).map snapShortName ↔
        s ∈ (VolumeDBSnapshotsGet st sp sv .custom).map snapShortName) ∧
    ((RefreshCustomVolume b d (RefreshCustomVolume b d st pn sp vn sv true excl).st
        pn sp vn sv true excl).err = none ∧
      (RefreshCustomVolume b d (RefreshCustomVolume b d st pn sp vn sv true excl).st
        pn sp vn sv true excl).st = (RefreshCustomVolume b d st pn sp vn sv true excl).st ∧
      (RefreshCustomVolume b d (RefreshCustomVolume b d st pn sp vn sv true excl).st
        pn sp vn sv true excl).tr =
        [Ev.drvRefreshVolume ⟨.custom, .vol pn (.plain vn)⟩ [] true]) := by
  have hsupb : d.info.volumeTypes.contains VolType.custom = true := by simpa using hsup
  have hsrcSub : (VolumeDBSnapshotsGet st sp sv .custom).Sublist st.dbVols := List.filter_sublist _
  have htgtSub : (VolumeDBSnapshotsGet st pn vn .custom).Sublist st.dbVols := List.filter_sublist _
  -- no database row may collide with a key of a snapshot row about to sync
  have hfree : ∀ r ∈ (VolumeDBSnapshotsGet st sp sv .custom).filter
      (fun r => !(((VolumeDBSnapshotsGet st pn vn .custom).map snapShortName).contains (snapShortName r))),
      ∀ r0 ∈ st.dbVols,
        r0.key ≠ (⟨pn, GetSnapshotVolumeName vn (snapShortName r), .custom⟩ : VolKey) := by
    intro r hr r0 hr0 hkey
    have hsnapb : r0.isSnapshot = true :=
      hsnapWF r0 hr0 vn (snapShortName r) (by rw [hkey]; rfl)
    have hr0t : r0 ∈ VolumeDBSnapshotsGet st pn vn .custom :=
      (mem_volumeDBSnapshotsGet st pn vn .custom r0).mpr
        ⟨hr0, hsnapb, by rw [hkey], by rw [hkey], snapShortName r, by rw [hkey]; rfl⟩
    have hshort : snapShortName r0 = snapShortName r := by
      unfold snapShortName
      rw [hkey]
      rfl
    have hcontains := List.of_mem_filter hr
    have hmemn : snapShortName r ∈ (VolumeDBSnapshotsGet st pn vn .custom).map snapShortName :=
      hshort ▸ List.mem_map_of_mem snapShortName hr0t
    simp only [Bool.not_eq_eq_eq_not, Bool.not_true] at hcontains
    rw [show ((VolumeDBSnapshotsGet st pn vn VolType.custom).map snapShortName).contains
        (snapShortName r) = true from by simpa using hmemn] at hcontains
    simp at hcontains
  obtain ⟨T1, hout1⟩ := refreshCustomVolume_run b d st pn sp vn sv excl srcVolRec hready hsup
    hdelOK hrefOK hspne hsrcfind hiso hkeysND hfree
  -- the marked / synced sets and the post-refresh state components
  have hkeyinj := dbKey_inj st.dbVols hkeysND
  -- pointwise: a target snapshot row survives the deletion pass exactly when
  -- its short name is present in the source
  have hPpoint : ∀ r ∈ VolumeDBSnapshotsGet st pn vn .custom,
      (!(((VolumeDBSnapshotsGet st pn vn .custom).filter
          (fun r => !(((VolumeDBSnapshotsGet st sp sv .custom).map snapShortName).contains
            (snapShortName r)))).any (fun m => r.key == m.key))) =
        ((VolumeDBSnapshotsGet st sp sv .custom).map snapShortName).contains (snapShortName r) := by
    intro r hrt
    by_cases hc : snapShortName r ∈ (VolumeDBSnapshotsGet st sp sv .custom).map snapShortName
    · have hcb : ((VolumeDBSnapshotsGet st sp sv .custom).map snapShortName).contains
          (snapShortName r) = true := by simpa using hc
      rw [hcb]
      have hany : (((VolumeDBSnapshotsGet st pn vn .custom).filter
          (fun r => !(((VolumeDBSnapshotsGet st sp sv .custom).map snapShortName).contains
            (snapShortName r)))).any (fun m => r.key == m.key)) = false := by
        rw [List.any_eq_false]
        intro m hm
        have hmt : m ∈ VolumeDBSnapshotsGet st pn vn .custom := List.mem_of_mem_filter hm
        have hmp := List.of_mem_filter hm
        simp only [beq_iff_eq]
        intro hkeq
        have hmr : m = r := hkeyinj m r (htgtSub.subset hmt) (htgtSub.subset hrt) (hkeq.symm)
        rw [hmr] at hmp
        simp only [Bool.not_eq_eq_eq_not, Bool.not_true] at hmp
        rw [hcb] at hmp
        simp at hmp
      rw [hany]
      rfl
    · have hcb : ((VolumeDBSnapshotsGet st sp sv .custom).map snapShortName).contains
          (snapShortName r) = false := by simpa using hc
      rw [hcb]
      have hrm : r ∈ (VolumeDBSnapshotsGet st pn vn .custom).filter
          (fun r => !(((VolumeDBSnapshotsGet st sp sv .custom).map snapShortName).contains
            (snapShortName r))) :=
        List.mem_filter.mpr ⟨hrt, by rw [hcb]; rfl⟩
      have hany : (((VolumeDBSnapshotsGet st pn vn .custom).filter
          (fun r => !(((VolumeDBSnapshotsGet st sp sv .custom).map snapShortName).contains
            (snapShortName r)))).any (fun m => r.key == m.key)) = true := by
        rw [List.any_eq_true]
        exact ⟨r, hrm, by simp⟩
      rw [hany]
      rfl
  -- the post-refresh target snapshot rows: surviving target rows plus the
  -- newly created rows
  have hsplit1 :
      (st.dbVols.filter (fun r0 =>
        !(((VolumeDBSnapshotsGet st pn vn .custom).filter
            (fun r => !(((VolumeDBSnapshotsGet st sp sv .custom).map snapShortName).contains
              (snapShortName r)))).any (fun m => r0.key == m.key)))).filter
        (fun r =>
          r.isSnapshot && r.key.project == pn && r.key.volType == VolType.custom &&
            match r.key.name with
            | .snap parent _ => parent == vn
            | .plain _ => false) =
      (VolumeDBSnapshotsGet st pn vn .custom).filter
        (fun r => ((VolumeDBSnapshotsGet st sp sv .custom).map snapShortName).contains
          (snapShortName r)) := by
    rw [List.filter_comm]
    apply List.filter_congr
    intro r hrt
    exact hPpoint r hrt
  have hsplit2 :
      (((VolumeDBSnapshotsGet st sp sv .custom).filter
          (fun r => !(((VolumeDBSnapshotsGet st pn vn .custom).map snapShortName).contains
            (snapShortName r)))).map (mkSnapRec pn vn srcVolRec.contentType)).filter
        (fun r =>
          r.isSnapshot && r.key.project == pn && r.key.volType == VolType.custom &&
            match r.key.name with
            | .snap parent _ => parent == vn
            | .plain _ => false) =
      ((VolumeDBSnapshotsGet st sp sv .custom).filter
          (fun r => !(((VolumeDBSnapshotsGet st pn vn .custom).map snapShortName).contains
            (snapShortName r)))).map (mkSnapRec pn vn srcVolRec.contentType) := by
    rw [List.filter_eq_self]
    intro r0 hr0
    obtain ⟨r, hr, rfl⟩ := List.mem_map.mp hr0
    simp [mkSnapRec, GetSnapshotVolumeName]
  have htgt2 : VolumeDBSnapshotsGet (RefreshCustomVolume b d st pn sp vn sv true excl).st
      pn vn .custom =
      (VolumeDBSnapshotsGet st pn vn .custom).filter
        (fun r => ((VolumeDBSnapshotsGet st sp sv .custom).map snapShortName).contains
          (snapShortName r)) ++
      ((VolumeDBSnapshotsGet st sp sv .custom).filter
          (fun r => !(((VolumeDBSnapshotsGet st pn vn .custom).map snapShortName).contains
            (snapShortName r)))).map (mkSnapRec pn vn srcVolRec.contentType) := by
    have hunf : ∀ (l : List VolRecord) (p : List PhysVol),
        VolumeDBSnapshotsGet ⟨l, p⟩ pn vn .custom = l.filter (fun r =>
          r.isSnapshot && r.key.project == pn && r.key.volType == VolType.custom &&
            match r.key.name with
            | .snap parent _ => parent == vn
            | .plain _ => false) := fun l p => rfl
    rw [hout1, hunf]
    rw [List.filter_append, hsplit1, hsplit2]
  -- the source snapshot rows are untouched by the refresh
  have hsrc2 : VolumeDBSnapshotsGet (RefreshCustomVolume b d st pn sp vn sv true excl).st
      sp sv .custom = VolumeDBSnapshotsGet st sp sv .custom := by
    have hunfs : ∀ (l : List VolRecord) (p : List PhysVol),
        VolumeDBSnapshotsGet ⟨l, p⟩ sp sv .custom = l.filter (fun r =>
          r.isSnapshot && r.key.project == sp && r.key.volType == VolType.custom &&
            match r.key.name with
            | .snap parent _ => parent == sv
            | .plain _ => false) := fun l p => rfl
    rw [hout1, hunfs, List.filter_append]
    have h2 : (((VolumeDBSnapshotsGet st sp sv .custom).filter
        (fun r => !(((VolumeDBSnapshotsGet st pn vn .custom).map snapShortName).contains
          (snapShortName r)))).map (mkSnapRec pn vn srcVolRec.contentType)).filter
        (fun r =>
          r.isSnapshot && r.key.project == sp && r.key.volType == VolType.custom &&
            match r.key.name with
            | .snap parent _ => parent == sv
            | .plain _ => false) = [] := by
      rw [List.filter_eq_nil]
      intro r0 hr0
      obtain ⟨r, hr, rfl⟩ := List.mem_map.mp hr0
      by_cases hps : pn = sp
      · have hsv : (vn == sv) = false := by
          rcases Bool.eq_false_or_eq_true (vn == sv) with h1 | h0
          · exact absurd ⟨hps.symm, ((by simpa using h1 : vn = sv)).symm⟩ hne
          · exact h0
        simp [mkSnapRec, GetSnapshotVolumeName, hsv]
      · have hval : (pn == sp) = false := by
          rcases Bool.eq_false_or_eq_true (pn == sp) with h1 | h0
          · exact absurd (by simpa using h1) hps
          · exact h0
        simp [mkSnapRec, GetSnapshotVolumeName, hval]
    have h1 : (st.dbVols.filter (fun r0 =>
        !(((VolumeDBSnapshotsGet st pn vn .custom).filter
            (fun r => !(((VolumeDBSnapshotsGet st sp sv .custom).map snapShortName).contains
              (snapShortName r)))).any (fun m => r0.key == m.key)))).filter
        (fun r =>
          r.isSnapshot && r.key.project == sp && r.key.volType == VolType.custom &&
            match r.key.name with
            | .snap parent _ => parent == sv
            | .plain _ => false) = VolumeDBSnapshotsGet st sp sv .custom := by
      rw [List.filter_comm]
      have hbase : st.dbVols.filter (fun r =>
          r.isSnapshot && r.key.project == sp && r.key.volType == VolType.custom &&
            match r.key.name with
            | .snap parent _ => parent == sv
            | .plain _ => false) = VolumeDBSnapshotsGet st sp sv .custom := rfl
      rw [hbase, List.filter_eq_self]
      intro r hr
      have hany : (((VolumeDBSnapshotsGet st pn vn .custom).filter
          (fun r2 => !(((VolumeDBSnapshotsGet st sp sv .custom).map snapShortName).contains
            (snapShortName r2)))).any (fun m => r.key == m.key)) = false := by
        rw [List.any_eq_false]
        intro m hm
        have hmt : m ∈ VolumeDBSnapshotsGet st pn vn .custom := List.mem_of_mem_filter hm
        simp only [beq_iff_eq]
        intro hkeq
        have hmr : m = r := hkeyinj m r (htgtSub.subset hmt) (hsrcSub.subset hr) hkeq.symm
        obtain ⟨-, -, hprojT, -, sT, hnameT⟩ := (mem_volumeDBSnapshotsGet st pn vn .custom m).mp hmt
        obtain ⟨-, -, hprojS, -, sS, hnameS⟩ := (mem_volumeDBSnapshotsGet st sp sv .custom r).mp hr
        rw [hmr] at hprojT hnameT
        rw [hnameS] at hnameT
        have hvs : sv = vn := by
          injection hnameT with h1 h2
        exact hne ⟨hprojS ▸ hprojT ▸ rfl, hvs⟩
      rw [hany]
      rfl
    rw [h1, h2, List.append_nil]
  -- every refreshed target snapshot name comes from the source
  have hA : ∀ s ∈ (VolumeDBSnapshotsGet (RefreshCustomVolume b d st pn sp vn sv true excl).st
      pn vn .custom).map snapShortName,
      s ∈ (VolumeDBSnapshotsGet st sp sv .custom).map snapShortName := by
    intro s hs
    rw [htgt2, List.map_append] at hs
    rcases List.mem_append.mp hs with hs | hs
    · obtain ⟨r, hr, rfl⟩ := List.mem_map.mp hs
      have hp := List.of_mem_filter hr
      simpa using hp
    · obtain ⟨r0, hr0, rfl⟩ := List.mem_map.mp hs
      obtain ⟨r, hr, rfl⟩ := List.mem_map.mp hr0
      rw [snapShortName_mkSnapRec]
      exact List.mem_map_of_mem snapShortName (List.mem_of_mem_filter hr)
  -- every source snapshot name is present after the refresh
  have hB : ∀ r ∈ VolumeDBSnapshotsGet st sp sv .custom,
      snapShortName r ∈ (VolumeDBSnapshotsGet (RefreshCustomVolume b d st pn sp vn sv true excl).st
        pn vn .custom).map snapShortName := by
    intro r hr
    rw [htgt2, List.map_append]
    by_cases hc : snapShortName r ∈ (VolumeDBSnapshotsGet st pn vn .custom).map snapShortName
    · obtain ⟨rt, hrt, hshort⟩ := List.mem_map.mp hc
      refine List.mem_append.mpr (Or.inl ?_)
      refine List.mem_map.mpr ⟨rt, List.mem_filter.mpr ⟨hrt, ?_⟩, hshort⟩
      rw [hshort]
      simpa using List.mem_map_of_mem snapShortName hr
    · refine List.mem_append.mpr (Or.inr ?_)
      have hrs : r ∈ (VolumeDBSnapshotsGet st sp sv .custom).filter
          (fun r2 => !(((VolumeDBSnapshotsGet st pn vn .custom).map snapShortName).contains
            (snapShortName r2))) := by
        refine List.mem_filter.mpr ⟨hr, ?_⟩
        have : ((VolumeDBSnapshotsGet st pn vn .custom).map snapShortName).contains
            (snapShortName r) = false := by simpa using hc
        rw [this]
        rfl
      have := List.mem_map_of_mem (mkSnapRec pn vn srcVolRec.contentType) hrs
      simpa [snapShortName_mkSnapRec] using
        List.mem_map_of_mem snapShortName this
  -- the source volume row is still found after the refresh
  have hfind2 : (RefreshCustomVolume b d st pn sp vn sv true excl).st.dbVols.find?
      (fun r => r.key == (⟨sp, .plain sv, .custom⟩ : VolKey)) = some srcVolRec := by
    rw [hout1]
    rw [List.find?_append]
    have h1 : (st.dbVols.filter (fun r0 =>
        !(((VolumeDBSnapshotsGet st pn vn .custom).filter
            (fun r => !(((VolumeDBSnapshotsGet st sp sv .custom).map snapShortName).contains
              (snapShortName r)))).any (fun m => r0.key == m.key)))).find?
        (fun r => r.key == (⟨sp, .plain sv, .custom⟩ : VolKey)) = some srcVolRec := by
      rw [find?_filter_of_imp]
      · exact hsrcfind
      · intro x hx
        have hxk : x.key = (⟨sp, .plain sv, .custom⟩ : VolKey) := by simpa using hx
        have hany : (((VolumeDBSnapshotsGet st pn vn .custom).filter
            (fun r => !(((VolumeDBSnapshotsGet st sp sv .custom).map snapShortName).contains
              (snapShortName r)))).any (fun m => x.key == m.key)) = false := by
          rw [List.any_eq_false]
          intro m hm
          obtain ⟨-, -, -, -, sT, hnameT⟩ :=
            (mem_volumeDBSnapshotsGet st pn vn .custom m).mp (List.mem_of_mem_filter hm)
          simp only [beq_iff_eq]
          intro hkeq
          rw [hxk] at hkeq
          rw [← hkeq] at hnameT
          simp at hnameT
        rw [hany]
        rfl
    rw [h1]
    rfl
  -- second call: the snapshot comparison comes back empty in both directions
  have hnames2 : ∀ (l : List VolRecord),
      (l.map (fun r => (⟨snapShortName r, r.creationDate⟩ : ComparableSnapshot))).map
        (fun s => s.name) = l.map snapShortName := by
    intro l
    rw [List.map_map]
    rfl
  have hcmp2del : (CompareSnapshots
      ((VolumeDBSnapshotsGet (RefreshCustomVolume b d st pn sp vn sv true excl).st sp sv .custom).map
        (fun r => (⟨snapShortName r, r.creationDate⟩ : ComparableSnapshot)))
      ((VolumeDBSnapshotsGet (RefreshCustomVolume b d st pn sp vn sv true excl).st pn vn .custom).map
        (fun r => (⟨snapShortName r, r.creationDate⟩ : ComparableSnapshot))) excl).2 = [] := by
    unfold CompareSnapshots
    simp only [hnames2]
    have hfe : (((VolumeDBSnapshotsGet (RefreshCustomVolume b d st pn sp vn sv true excl).st
        pn vn .custom).map
          (fun r => (⟨snapShortName r, r.creationDate⟩ : ComparableSnapshot))).enum.filter
        (fun q => !(((VolumeDBSnapshotsGet (RefreshCustomVolume b d st pn sp vn sv true excl).st
          sp sv .custom).map snapShortName).contains q.2.name))) = [] := by
      rw [List.filter_eq_nil]
      intro q hq
      have hq2 := snd_mem_of_mem_enumFrom _ 0 q hq
      obtain ⟨r, hr, hq2e⟩ := List.mem_map.mp hq2
      have hsn : q.2.name = snapShortName r := by rw [← hq2e]
      have hmem : snapShortName r ∈ (VolumeDBSnapshotsGet st sp sv .custom).map snapShortName :=
        hA (snapShortName r) (List.mem_map_of_mem snapShortName hr)
      rw [hsrc2, hsn]
      simp only [Bool.not_eq_true]
      rw [show ((VolumeDBSnapshotsGet st sp sv .custom).map snapShortName).contains
        (snapShortName r) = true from by simpa using hmem]
      simp
    rw [hfe]
    rfl
  have hcmp2sync : (CompareSnapshots
      ((VolumeDBSnapshotsGet (RefreshCustomVolume b d st pn sp vn sv true excl).st sp sv .custom).map
        (fun r => (⟨snapShortName r, r.creationDate⟩ : ComparableSnapshot)))
      ((VolumeDBSnapshotsGet (RefreshCustomVolume b d st pn sp vn sv true excl).st pn vn .custom).map
        (fun r => (⟨snapShortName r, r.creationDate⟩ : ComparableSnapshot))) excl).1 = [] := by
    unfold CompareSnapshots
    simp only [hnames2]
    have hfe : (((VolumeDBSnapshotsGet (RefreshCustomVolume b d st pn sp vn sv true excl).st
        sp sv .custom).map
          (fun r => (⟨snapShortName r, r.creationDate⟩ : ComparableSnapshot))).enum.filter
        (fun q => !(((VolumeDBSnapshotsGet (RefreshCustomVolume b d st pn sp vn sv true excl).st
          pn vn .custom).map snapShortName).contains q.2.name))) = [] := by
      rw [List.filter_eq_nil]
      intro q hq
      have hq2 := snd_mem_of_mem_enumFrom _ 0 q hq
      rw [hsrc2] at hq2
      obtain ⟨r, hr, hq2e⟩ := List.mem_map.mp hq2
      have hsn : q.2.name = snapShortName r := by rw [← hq2e]
      have hmem := hB r hr
      rw [hsn]
      simp only [Bool.not_eq_true]
      rw [show ((VolumeDBSnapshotsGet (RefreshCustomVolume b d st pn sp vn sv true excl).st
        pn vn .custom).map snapShortName).contains (snapShortName r) = true from by simpa using hmem]
      simp
    rw [hfe]
    rfl
  have hcall2gen : ∀ stL : StorState,
      stL.dbVols.find? (fun r => r.key == (⟨sp, .plain sv, .custom⟩ : VolKey)) = some srcVolRec →
      (CompareSnapshots
        ((VolumeDBSnapshotsGet stL sp sv .custom).map
          (fun r => (⟨snapShortName r, r.creationDate⟩ : ComparableSnapshot)))
        ((VolumeDBSnapshotsGet stL pn vn .custom).map
          (fun r => (⟨snapShortName r, r.creationDate⟩ : ComparableSnapshot))) excl).2 = [] →
      (CompareSnapshots
        ((VolumeDBSnapshotsGet stL sp sv .custom).map
          (fun r => (⟨snapShortName r, r.creationDate⟩ : ComparableSnapshot)))
        ((VolumeDBSnapshotsGet stL pn vn .custom).map
          (fun r => (⟨snapShortName r, r.creationDate⟩ : ComparableSnapshot))) excl).1 = [] →
      RefreshCustomVolume b d stL pn sp vn sv true excl =
        ⟨none, stL, [Ev.drvRefreshVolume ⟨.custom, .vol pn (.plain vn)⟩ [] true]⟩ := by
    intro stL hfindL hdelL hsyncL
    unfold RefreshCustomVolume
    rw [hready]
    simp only [hspne, Bool.false_eq_true, if_false, VolumeDBGet, hfindL, hiso, hsupb,
      Bool.not_true, if_true]
    rw [hdelL, hsyncL]
    simp only [refreshDeleteLoop, List.filterMap_nil, refreshCreateLoop, hrefOK, applyEv,
      StorageVolume, List.map_nil, List.append_nil, List.nil_append]
    simp
  have hcall2 := hcall2gen _ hfind2 hcmp2del hcmp2sync
  -- key shape of a target snapshot row
  have hkeyshape : ∀ r ∈ VolumeDBSnapshotsGet st pn vn .custom,
      r.key = (⟨pn, VolName.snap vn (snapShortName r), .custom⟩ : VolKey) := by
    intro r hr
    obtain ⟨-, -, hproj, htype, s, hname⟩ := (mem_volumeDBSnapshotsGet st pn vn .custom r).mp hr
    have hsn : snapShortName r = s := by
      unfold snapShortName
      rw [hname]
      rfl
    rw [hsn, ← hproj, ← htype, ← hname]
  refine ⟨by rw [hout1], ?_, ?_, ?_, by rw [hcall2], by rw [hcall2], by rw [hcall2]⟩
  · intro r hr hnot
    have hrm : r ∈ (VolumeDBSnapshotsGet st pn vn .custom).filter
        (fun r => !(((VolumeDBSnapshotsGet st sp sv .custom).map snapShortName).contains
          (snapShortName r))) := by
      rw [List.mem_filter]
      exact ⟨hr, by simpa using hnot⟩
    have hkr := hkeyshape r hr
    constructor
    · intro r0 hr0 hkeq
      rw [hout1] at hr0
      rcases List.mem_append.mp hr0 with h0 | h0
      · have h0' := List.of_mem_filter h0
        have hX : ((VolumeDBSnapshotsGet st pn vn .custom).filter
            (fun r => !(((VolumeDBSnapshotsGet st sp sv .custom).map snapShortName).contains
              (snapShortName r)))).any (fun m => r0.key == m.key) = false :=
          (bnot_eq_true_iff _).mp h0'
        rw [List.any_eq_false] at hX
        exact hX r hrm (by simp [hkeq])
      · obtain ⟨rs, hrs, rfl⟩ := List.mem_map.mp h0
        have hkey0 : (mkSnapRec pn vn srcVolRec.contentType rs).key =
            (⟨pn, VolName.snap vn (snapShortName rs), .custom⟩ : VolKey) := rfl
        rw [hkey0, hkr] at hkeq
        have hshort_eq : snapShortName rs = snapShortName r := by simpa using hkeq
        have hrs' := List.mem_of_mem_filter hrs
        have hin : snapShortName rs ∈ (VolumeDBSnapshotsGet st sp sv .custom).map snapShortName :=
          List.mem_map_of_mem snapShortName hrs'
        rw [hshort_eq] at hin
        exact hnot hin
    · intro hmem
      rw [hout1] at hmem
      rcases List.mem_append.mp hmem with h0 | h0
      · have h0' := List.of_mem_filter h0
        have hX : ((VolumeDBSnapshotsGet st pn vn .custom).filter
            (fun r => !(((VolumeDBSnapshotsGet st sp sv .custom).map snapShortName).contains
              (snapShortName r)))).any
            (fun m => (⟨.custom, .vol pn r.key.name⟩ : PhysVol) ==
              (⟨.custom, .vol pn m.key.name⟩ : PhysVol)) = false :=
          (bnot_eq_true_iff _).mp h0'
        rw [List.any_eq_false] at hX
        exact hX r hrm (by simp)
      · obtain ⟨rs, hrs, heq⟩ := List.mem_map.mp h0
        have hshort_eq : snapShortName rs = snapShortName r := by
          rw [hkr] at heq
          simpa using heq
        have hrs' := List.mem_of_mem_filter hrs
        have hin : snapShortName rs ∈ (VolumeDBSnapshotsGet st sp sv .custom).map snapShortName :=
          List.mem_map_of_mem snapShortName hrs'
        rw [hshort_eq] at hin
        exact hnot hin
  · rw [hout1]
    simp
  · intro s2
    refine ⟨hA s2, fun hs => ?_⟩
    obtain ⟨r, hr, rfl⟩ := List.mem_map.mp hs
    exact hB r hr

/-- Concrete database for the C3 witness: a source custom volume "w" in
project "q" carrying one snapshot "s1", and a target custom volume "v" in
project "p" carrying a stale snapshot "s0" absent from the source. -/
def c3State : StorState :=
  ⟨[⟨⟨"q", .plain "w", .custom⟩, false, cfg0, "", .fs, 0, none⟩,
    ⟨⟨"q", .snap "w" "s1", .custom⟩, true, cfg0, "", .fs, 5, none⟩,
    ⟨⟨"p", .plain "v", .custom⟩, false, cfg0, "", .fs, 0, none⟩,
    ⟨⟨"p", .snap "v" "s0", .custom⟩, true, cfg0, "", .fs, 3, none⟩],
   [⟨.custom, .vol "q" (.plain "w")⟩, ⟨.custom, .vol "q" (.snap "w" "s1")⟩,
    ⟨.custom, .vol "p" (.plain "v")⟩, ⟨.custom, .vol "p" (.snap "v" "s0")⟩]⟩

/-- C3 witness: on the concrete state the first refresh succeeds and the
second refresh from the unchanged source transfers no snapshots. -/
theorem claim_C3_refresh_idempotent_witness :
    (RefreshCustomVolume readyBackend okDriver c3State "p" "q" "v" "w" true false).err = none ∧
    (RefreshCustomVolume readyBackend okDriver
        (RefreshCustomVolume readyBackend okDriver c3State "p" "q" "v" "w" true false).st
        "p" "q" "v" "w" true false).tr =
      [Ev.drvRefreshVolume ⟨.custom, .vol "p" (.plain "v")⟩ [] true] := by
  have h := claim_C3_refresh_idempotent readyBackend okDriver c3State "p" "q" "v" "w" false
    (⟨⟨"q", .plain "w", .custom⟩, false, cfg0, "", .fs, 0, none⟩ : VolRecord)
    rfl (by decide) (fun v => rfl) (fun v => rfl) rfl rfl rfl (by decide) (by decide)
    (by
      intro r hr p s hname
      simp only [c3State, List.mem_cons, List.not_mem_nil, or_false] at hr
      rcases hr with rfl | rfl | rfl | rfl
      · simp at hname
      · rfl
      · simp at hname
      · rfl)
  exact ⟨h.1, h.2.2.2.2.2.2⟩

/-- Every branch of the migration-receive tail writes exactly the
acknowledgement frame produced by the index header receive step. -/
theorem migrationTail_snd (b : Backend) (d : DriverBehavior) (st : StorState)
    (projectName : String) (headerFrame : Frame) (args : VolumeTargetArgs) (refresh : Bool)
    (volumeConfig : VolConfig) (key : VolKey) (vol : PhysVol) (now : Nat) :
    (createCustomVolumeFromMigrationTail b d st projectName headerFrame args refresh
        volumeConfig key vol now).2 =
      (migrationIndexHeaderReceive args.indexHeaderVersion headerFrame refresh).2 := by
  simp only [createCustomVolumeFromMigrationTail]
  rcases hrcv : migrationIndexHeaderReceive args.indexHeaderVersion headerFrame refresh with ⟨res, ack⟩
  rcases res with e | srcInfo
  · rfl
  · cases refresh
    · cases hany : st.dbVols.any (fun r0 => r0.key == key) <;>
        simp only [Bool.not_false, if_true, hany, Bool.false_eq_true, if_false, Bool.true_eq_false] <;>
        first
        | rfl
        | (cases hout : (migrationSnapshotRowsLoop projectName args.name args.contentType
              volumeConfig args.description srcInfo.volumeSnapshots args.snapshots _ _ _).err <;>
            simp only [hout] <;>
            first
            | rfl
            | (cases hcv : d.createVolumeFromMigration vol <;> simp only [hcv]))
    · cases hout : (migrationSnapshotRowsLoop projectName args.name args.contentType
          volumeConfig args.description srcInfo.volumeSnapshots args.snapshots st
          [Ev.indexHeaderReceived] []).err <;>
        simp only [Bool.not_true, Bool.false_eq_true, if_false, hout] <;>
        first
        | rfl
        | (cases hcv : d.createVolumeFromMigration vol <;> simp only [hcv])

/-- C7: CreateCustomVolumeFromMigration fails the database/storage
consistency check before creating records or receiving any payload: a
volume on storage without a database record, or a database record without
the volume on storage, is rejected with the state unchanged, no events
performed and no acknowledgement frame written. -/
theorem claim_C7_migration_consistency (b : Backend) (d : DriverBehavior) (st : StorState)
    (projectName : String) (headerFrame : Frame) (args : VolumeTargetArgs) (now : Nat)
    (hready : isStatusReady b = none)
    (hsup : d.info.volumeTypes.contains VolType.custom = true) :
    (st.dbVols.find? (fun r => r.key == (⟨projectName, .plain args.name, .custom⟩ : VolKey)) = none →
      st.physVols.contains (⟨.custom, StorageVolume projectName (.plain args.name)⟩ : PhysVol) = true →
      CreateCustomVolumeFromMigration b d st projectName headerFrame args now =
        (⟨some (.msg "Volume already exists on storage but not in database"), st, []⟩, none)) ∧
    (∀ r, st.dbVols.find? (fun r0 => r0.key ==
        (⟨projectName, .plain args.name, .custom⟩ : VolKey)) = some r →
      st.physVols.contains (⟨.custom, StorageVolume projectName (.plain args.name)⟩ : PhysVol) = false →
      CreateCustomVolumeFromMigration b d st projectName headerFrame args now =
        (⟨some (.msg "Volume exists in database but not on storage"), st, []⟩, none)) := by
  constructor
  · intro hdb hphys
    unfold CreateCustomVolumeFromMigration
    rw [hready]
    simp only [hsup, Bool.not_true, Bool.false_eq_true, if_false, hdb, hphys, Option.isNone_none,
      Bool.and_true, Bool.true_and, if_true]
  · intro r hdb hphys
    unfold CreateCustomVolumeFromMigration
    rw [hready]
    simp only [hsup, Bool.not_true, Bool.false_eq_true, if_false, hdb, hphys, Option.isNone_some,
      Option.isSome_some, Bool.false_and, Bool.and_false, Bool.true_and, Bool.and_true,
      Bool.not_false, if_true, if_false]

/-- C7 witness: a physical volume with no database row stops the
migration before any record or frame is produced. -/
theorem claim_C7_migration_consistency_witness :
    CreateCustomVolumeFromMigration readyBackend okDriver
        (⟨[], [⟨.custom, .vol "pr" (.plain "cv")⟩]⟩ : StorState) "pr"
        (.respFrame ⟨200, none⟩) ⟨"cv", "", cfg0, [], false, .fs, 1⟩ 0 =
      (⟨some (.msg "Volume already exists on storage but not in database"),
        ⟨[], [⟨.custom, .vol "pr" (.plain "cv")⟩]⟩, []⟩, none) :=
  (claim_C7_migration_consistency readyBackend okDriver
      (⟨[], [⟨.custom, .vol "pr" (.plain "cv")⟩]⟩ : StorState) "pr"
      (.respFrame ⟨200, none⟩) ⟨"cv", "", cfg0, [], false, .fs, 1⟩ 0 rfl (by decide)).1
    rfl (by decide)

/-- C4: in the index header exchange at a positive agreed version the
sender writes exactly one frame holding the serialized metadata and reads
the acknowledgement, the receiver decodes that frame and acknowledges
with a status-OK response carrying the refresh flag, the two compose, and
the migration target acknowledges with refresh forced to false when the
target volume does not exist yet even though the source requested a
refresh. -/
theorem claim_C4_index_header (v : Nat) (i : MigInfo) (refresh : Bool)
    (b : Backend) (d : DriverBehavior) (st : StorState) (projectName : String)
    (args : VolumeTargetArgs) (now : Nat)
    (hv : 0 < v)
    (hready : isStatusReady b = none)
    (hsup : d.info.volumeTypes.contains VolType.custom = true)
    (hav : 0 < args.indexHeaderVersion)
    (hrefresh : args.refresh = true)
    (hnodb : st.dbVols.find? (fun r => r.key ==
      (⟨projectName, .plain args.name, .custom⟩ : VolKey)) = none)
    (hnophys : st.physVols.contains
      (⟨.custom, StorageVolume projectName (.plain args.name)⟩ : PhysVol) = false) :
    (∀ respF, (migrationIndexHeaderSend v i respF).2 = some (.infoFrame i)) ∧
    migrationIndexHeaderReceive v (.infoFrame i) refresh =
      (.ok i, some (.respFrame ⟨200, some refresh⟩)) ∧
    migrationIndexHeaderSend v i (.respFrame ⟨200, some refresh⟩) =
      (.ok ⟨200, some refresh⟩, some (.infoFrame i)) ∧
    (CreateCustomVolumeFromMigration b d st projectName (.infoFrame i) args now).2 =
      some (.respFrame ⟨200, some false⟩) := by
  refine ⟨?_, ?_, ?_, ?_⟩
  · intro respF
    unfold migrationIndexHeaderSend
    rw [if_pos hv]
    rcases respF with i2 | r
    · rfl
    · by_cases h200 : r.statusCode = 200
      · simp [h200]
      · simp [h200]
  · unfold migrationIndexHeaderReceive
    rw [if_pos hv]
  · unfold migrationIndexHeaderSend
    rw [if_pos hv]
    rfl
  · unfold CreateCustomVolumeFromMigration
    rw [hready]
    simp only [hsup, Bool.not_true, Bool.false_eq_true, if_false, hnodb, hnophys,
      Option.isNone_none, Bool.and_false, Bool.true_and, Bool.and_true, Option.isSome_none,
      Bool.false_and, Bool.not_false, hrefresh, Bool.true_and, if_true]
    rw [migrationTail_snd]
    unfold migrationIndexHeaderReceive
    rw [if_pos hav]

/-- C4 witness: on a fresh target requesting refresh, the receiver decodes
the header and the target acknowledges with refresh forced to false. -/
theorem claim_C4_index_header_witness :
    migrationIndexHeaderReceive 1 (.infoFrame ⟨"cv", cfg0, []⟩) true =
      (.ok ⟨"cv", cfg0, []⟩, some (.respFrame ⟨200, some true⟩)) ∧
    (CreateCustomVolumeFromMigration readyBackend okDriver emptyState "pr"
        (.infoFrame ⟨"cv", cfg0, []⟩) ⟨"cv", "", cfg0, [], true, .fs, 1⟩ 0).2 =
      some (.respFrame ⟨200, some false⟩) := by
  have h := claim_C4_index_header 1 ⟨"cv", cfg0, []⟩ true readyBackend okDriver emptyState "pr"
    ⟨"cv", "", cfg0, [], true, .fs, 1⟩ 0 (by decide) rfl (by decide) (by decide) rfl rfl rfl
  exact ⟨h.2.1, h.2.2.2⟩

/-- When every instance-snapshot deletion succeeds, the snapshot-pruning
pass of the restore deletes exactly the instance snapshots named in the
blocking list, in instance order. -/
theorem restoreDeleteSnapsLoop_ok (d : DriverBehavior) (pn inst : String) (vt : VolType)
    (blocking : List String) (hdel : ∀ s, d.instSnapshotDelete s = none) :
    ∀ (l : List String) (st : StorState) (tr : List Ev),
      restoreDeleteSnapsLoop d pn inst vt blocking l st tr =
        (none,
         applyEvs st ((l.filter (fun s => blocking.contains s)).map
           (fun s => Ev.instSnapshotDelete pn inst s vt)),
         tr ++ (l.filter (fun s => blocking.contains s)).map
           (fun s => Ev.instSnapshotDelete pn inst s vt)) := by
  intro l
  induction l with
  | nil => intro st tr; simp [restoreDeleteSnapsLoop, applyEvs]
  | cons s rest ih =>
      intro st tr
      cases hc : blocking.contains s
      · simp only [restoreDeleteSnapsLoop, hc, Bool.not_false, if_true, ih, List.filter_cons,
          Bool.false_eq_true, if_false]
      · simp only [restoreDeleteSnapsLoop, hc, Bool.not_true, Bool.false_eq_true, if_false,
          hdel, ih, List.filter_cons, if_true]
        refine congrArg _ (congrArg _ ?_)
        simp [applyEvs, List.append_assoc]

/-- C5: when the first driver restore fails, an error other than
ErrDeleteSnapshots is returned immediately with no snapshot deleted and
no second attempt; on ErrDeleteSnapshots the instance snapshots named in
the error are deleted and the restore retried exactly once, whose
failure is returned as final (the trace holds exactly attempts 0 and 1),
and whose success completes the operation. -/
theorem claim_C5_restore_retry (b : Backend) (d : DriverBehavior) (st : StorState)
    (projectName instName parent snapshotName : String) (typeIsVM : Bool)
    (instSnapshots : List String) (dbVol srcDBVol : VolRecord) (e0 : Err)
    (hfind1 : VolumeDBGet st ⟨projectName, .plain instName,
       (if typeIsVM then VolType.vm else VolType.container)⟩ = .ok dbVol)
    (hfind2 : VolumeDBGet st ⟨projectName, .snap parent snapshotName,
       (if typeIsVM then VolType.vm else VolType.container)⟩ = .ok srcDBVol)
    (hcfg : dbVol.config = srcDBVol.config)
    (hdesc : dbVol.description = srcDBVol.description)
    (hdel : ∀ s, d.instSnapshotDelete s = none)
    (h0 : d.restoreVolume 0 = some e0) :
    (e0.asDeleteSnapshots = none →
      RestoreInstanceSnapshot b d st projectName instName (.snap parent snapshotName)
          false true false typeIsVM instSnapshots =
        ⟨some e0, st,
          [Ev.drvRestore ⟨(if typeIsVM then VolType.vm else VolType.container),
            .vol projectName (.plain instName)⟩ snapshotName 0 false]⟩) ∧
    (∀ blocking e1, e0.asDeleteSnapshots = some blocking → d.restoreVolume 1 = some e1 →
      RestoreInstanceSnapshot b d st projectName instName (.snap parent snapshotName)
          false true false typeIsVM instSnapshots =
        ⟨some e1,
          applyEvs st ((instSnapshots.filter (fun s => blocking.contains s)).map
            (fun s => Ev.instSnapshotDelete projectName instName s
              (if typeIsVM then VolType.vm else VolType.container))),
          Ev.drvRestore ⟨(if typeIsVM then VolType.vm else VolType.container),
              .vol projectName (.plain instName)⟩ snapshotName 0 false ::
            (instSnapshots.filter (fun s => blocking.contains s)).map
              (fun s => Ev.instSnapshotDelete projectName instName s
                (if typeIsVM then VolType.vm else VolType.container)) ++
            [Ev.drvRestore ⟨(if typeIsVM then VolType.vm else VolType.container),
              .vol projectName (.plain instName)⟩ snapshotName 1 false]⟩) ∧
    (∀ blocking, e0.asDeleteSnapshots = some blocking → d.restoreVolume 1 = none →
      RestoreInstanceSnapshot b d st projectName instName (.snap parent snapshotName)
          false true false typeIsVM instSnapshots =
        ⟨none,
          applyEvs st ((instSnapshots.filter (fun s => blocking.contains s)).map
            (fun s => Ev.instSnapshotDelete projectName instName s
              (if typeIsVM then VolType.vm else VolType.container))),
          Ev.drvRestore ⟨(if typeIsVM then VolType.vm else VolType.container),
              .vol projectName (.plain instName)⟩ snapshotName 0 false ::
            (instSnapshots.filter (fun s => blocking.contains s)).map
              (fun s => Ev.instSnapshotDelete projectName instName s
                (if typeIsVM then VolType.vm else VolType.container)) ++
            [Ev.drvRestore ⟨(if typeIsVM then VolType.vm else VolType.container),
              .vol projectName (.plain instName)⟩ snapshotName 1 true]⟩) := by
  refine ⟨?_, ?_, ?_⟩
  · intro hnds
    unfold RestoreInstanceSnapshot
    simp only [Bool.false_eq_true, if_false, Bool.not_true, hfind1, hfind2, hcfg, hdesc,
      bne_self_eq_false, Bool.or_self, h0, hnds]
    simp [runReverts]
  · intro blocking e1 hds h1
    unfold RestoreInstanceSnapshot
    simp only [Bool.false_eq_true, if_false, Bool.not_true, hfind1, hfind2, hcfg, hdesc,
      bne_self_eq_false, Bool.or_self, h0, hds,
      restoreDeleteSnapsLoop_ok d projectName instName _ blocking hdel, h1]
    simp [runReverts]
  · intro blocking hds h1
    unfold RestoreInstanceSnapshot
    simp only [Bool.false_eq_true, if_false, Bool.not_true, hfind1, hfind2, hcfg, hdesc,
      bne_self_eq_false, Bool.or_self, h0, hds,
      restoreDeleteSnapsLoop_ok d projectName instName _ blocking hdel, h1]
    simp [runReverts]

/-- A driver whose first restore attempt reports a blocking snapshot "s1"
and whose single retry succeeds. -/
def retryDriver : DriverBehavior :=
  { okDriver with restoreVolume := fun n => if n == 0 then some (.deleteSnapshots ["s1"]) else none }

/-- Instance "i1" with snapshots "s0" and "s1" for the C5 witness. -/
def c5State : StorState :=
  ⟨[⟨⟨"pr", .plain "i1", .container⟩, false, cfg0, "", .fs, 0, none⟩,
    ⟨⟨"pr", .snap "i1" "s0", .container⟩, true, cfg0, "", .fs, 1, none⟩,
    ⟨⟨"pr", .snap "i1" "s1", .container⟩, true, cfg0, "", .fs, 2, none⟩],
   [⟨.container, .vol "pr" (.plain "i1")⟩,
    ⟨.container, .vol "pr" (.snap "i1" "s0")⟩,
    ⟨.container, .vol "pr" (.snap "i1" "s1")⟩]⟩

/-- C5 witness: on the concrete instance the blocking snapshot "s1" is
deleted and the single retry completes the restore. -/
theorem claim_C5_restore_retry_witness :
    RestoreInstanceSnapshot readyBackend retryDriver c5State "pr" "i1" (.snap "i1" "s0")
        false true false false ["s0", "s1"] =
      ⟨none,
       ⟨[⟨⟨"pr", .plain "i1", .container⟩, false, cfg0, "", .fs, 0, none⟩,
         ⟨⟨"pr", .snap "i1" "s0", .container⟩, true, cfg0, "", .fs, 1, none⟩],
        [⟨.container, .vol "pr" (.plain "i1")⟩, ⟨.container, .vol "pr" (.snap "i1" "s0")⟩]⟩,
       [Ev.drvRestore ⟨.container, .vol "pr" (.plain "i1")⟩ "s0" 0 false,
        Ev.instSnapshotDelete "pr" "i1" "s1" .container,
        Ev.drvRestore ⟨.container, .vol "pr" (.plain "i1")⟩ "s0" 1 true]⟩ := by
  have h := (claim_C5_restore_retry readyBackend retryDriver c5State "pr" "i1" "i1" "s0" false
    ["s0", "s1"]
    (⟨⟨"pr", .plain "i1", .container⟩, false, cfg0, "", .fs, 0, none⟩ : VolRecord)
    (⟨⟨"pr", .snap "i1" "s0", .container⟩, true, cfg0, "", .fs, 1, none⟩ : VolRecord)
    (.deleteSnapshots ["s1"]) rfl rfl rfl rfl (fun s => rfl) rfl).2.2 ["s1"] rfl rfl
  exact h.trans (by decide)

/-- Filtering out a value leaves a list that does not contain it. -/
theorem contains_filter_ne {α : Type} [DecidableEq α] (l : List α) (v : α) :
    (l.filter (fun w => w != v)).contains v = false := by
  rw [Bool.eq_false_iff]
  intro hc
  have hm : v ∈ l.filter (fun w => w != v) := by simpa using hc
  have hp := List.of_mem_filter hm
  simp at hp

/-- Filtering out a key leaves no record carrying it. -/
theorem any_key_filter (l : List VolRecord) (k : VolKey) :
    ((l.filter (fun r => r.key != k)).any (fun r => r.key == k)) = false := by
  rw [List.any_eq_false]
  intro r hr
  have hp := List.of_mem_filter hr
  simp at hp ⊢
  exact hp

/-- DeleteImage on a recorded image present on storage with a succeeding
driver: the physical volume is deleted first, then the record. -/
theorem deleteImage_ok (b : Backend) (d : DriverBehavior) (st : StorState) (fp : String)
    (r : VolRecord)
    (hfind : st.dbVols.find? (fun r0 => r0.key ==
      (⟨projectDefault, .plain fp, .image⟩ : VolKey)) = some r)
    (hphys : st.physVols.contains (⟨.image, .image fp⟩ : PhysVol) = true)
    (hdelv : d.deleteVolume (⟨.image, .image fp⟩ : PhysVol) = none) :
    DeleteImage b d st fp =
      ⟨none,
       ⟨st.dbVols.filter (fun r0 => r0.key != (⟨projectDefault, .plain fp, .image⟩ : VolKey)),
        st.physVols.filter (fun w => w != (⟨.image, .image fp⟩ : PhysVol))⟩,
       [Ev.drvDeleteVolume ⟨.image, .image fp⟩ true,
        Ev.dbDelete ⟨projectDefault, .plain fp, .image⟩,
        Ev.authDelete ⟨projectDefault, .plain fp, .image⟩]⟩ := by
  unfold DeleteImage
  simp only [VolumeDBGet, hfind, hphys, if_true, hdelv, applyEv]

/-- The image creation tail on a collision-free database with a succeeding
driver: the row is created, the authorizer updated, then the volume built. -/
theorem ensureImageCreateTail_ok (b : Backend) (d : DriverBehavior) (st : StorState)
    (fp : String) (ct : ContentType) (tr : List Ev) (now : Nat)
    (hany : (st.dbVols.any (fun r => r.key ==
      (⟨projectDefault, .plain fp, .image⟩ : VolKey))) = false)
    (hcrtv : d.createVolume (⟨.image, .image fp⟩ : PhysVol) = none) :
    ensureImageCreateTail b d st fp ct tr now =
      ⟨none,
       ⟨st.dbVols ++ [⟨⟨projectDefault, .plain fp, .image⟩, false,
          ⟨d.fillBlockBacked, d.fillBlockFS, ""⟩, "", ct, now, none⟩],
        st.physVols ++ [⟨.image, .image fp⟩]⟩,
       tr ++ [Ev.dbCreate ⟨⟨projectDefault, .plain fp, .image⟩, false,
          ⟨d.fillBlockBacked, d.fillBlockFS, ""⟩, "", ct, now, none⟩,
         Ev.authAdd ⟨projectDefault, .plain fp, .image⟩,
         Ev.drvCreateVolume ⟨.image, .image fp⟩ true]⟩ := by
  unfold ensureImageCreateTail
  simp only [hany, Bool.false_eq_true, if_false, hcrtv, applyEv]
  simp

/-- C6: on an OptimizedImages driver a cached image volume whose recorded
block-backed mode or block filesystem no longer matches the pool's current
defaults is deleted and rebuilt with the current defaults; a cache hit
whose quota application fails with a shrink (or not-supported) error is
likewise deleted and rebuilt instead of failing; and a matching cache hit
with a successful quota application returns success without recreating
anything. -/
theorem claim_C6_ensure_image_cache (b : Backend) (d : DriverBehavior) (st : StorState)
    (fingerprint : String) (imageIsVM : Bool) (now : Nat) (imgDBVol : VolRecord)
    (hready : isStatusReady b = none)
    (hopt : d.info.optimizedImages = true)
    (hfind : st.dbVols.find? (fun r => r.key ==
      (⟨projectDefault, .plain fingerprint, .image⟩ : VolKey)) = some imgDBVol)
    (hphys : st.physVols.contains (⟨.image, .image fingerprint⟩ : PhysVol) = true)
    (hdelv : d.deleteVolume (⟨.image, .image fingerprint⟩ : PhysVol) = none)
    (hcrtv : d.createVolume (⟨.image, .image fingerprint⟩ : PhysVol) = none) :
    ((d.fillBlockBacked != imgDBVol.config.blockBacked) = true →
      EnsureImage b d st fingerprint imageIsVM now =
        ⟨none,
         ⟨st.dbVols.filter (fun r0 => r0.key !=
            (⟨projectDefault, .plain fingerprint, .image⟩ : VolKey)) ++
            [⟨⟨projectDefault, .plain fingerprint, .image⟩, false,
              ⟨d.fillBlockBacked, d.fillBlockFS, ""⟩, "",
              (if imageIsVM then ContentType.block else ContentType.fs), now, none⟩],
          st.physVols.filter (fun w => w != (⟨.image, .image fingerprint⟩ : PhysVol)) ++
            [⟨.image, .image fingerprint⟩]⟩,
         [Ev.drvDeleteVolume ⟨.image, .image fingerprint⟩ true,
          Ev.dbDelete ⟨projectDefault, .plain fingerprint, .image⟩,
          Ev.authDelete ⟨projectDefault, .plain fingerprint, .image⟩,
          Ev.dbCreate ⟨⟨projectDefault, .plain fingerprint, .image⟩, false,
            ⟨d.fillBlockBacked, d.fillBlockFS, ""⟩, "",
            (if imageIsVM then ContentType.block else ContentType.fs), now, none⟩,
          Ev.authAdd ⟨projectDefault, .plain fingerprint, .image⟩,
          Ev.drvCreateVolume ⟨.image, .image fingerprint⟩ true]⟩) ∧
    ((d.fillBlockBacked != imgDBVol.config.blockBacked) = false →
      (imgDBVol.config.blockBacked && imgDBVol.config.blockFS != d.fillBlockFS) = true →
      EnsureImage b d st fingerprint imageIsVM now =
        ⟨none,
         ⟨st.dbVols.filter (fun r0 => r0.key !=
            (⟨projectDefault, .plain fingerprint, .image⟩ : VolKey)) ++
            [⟨⟨projectDefault, .plain fingerprint, .image⟩, false,
              ⟨d.fillBlockBacked, d.fillBlockFS, ""⟩, "",
              (if imageIsVM then ContentType.block else ContentType.fs), now, none⟩],
          st.physVols.filter (fun w => w != (⟨.image, .image fingerprint⟩ : PhysVol)) ++
            [⟨.image, .image fingerprint⟩]⟩,
         [Ev.drvDeleteVolume ⟨.image, .image fingerprint⟩ true,
          Ev.dbDelete ⟨projectDefault, .plain fingerprint, .image⟩,
          Ev.authDelete ⟨projectDefault, .plain fingerprint, .image⟩,
          Ev.dbCreate ⟨⟨projectDefault, .plain fingerprint, .image⟩, false,
            ⟨d.fillBlockBacked, d.fillBlockFS, ""⟩, "",
            (if imageIsVM then ContentType.block else ContentType.fs), now, none⟩,
          Ev.authAdd ⟨projectDefault, .plain fingerprint, .image⟩,
          Ev.drvCreateVolume ⟨.image, .image fingerprint⟩ true]⟩) ∧
    ((d.fillBlockBacked != imgDBVol.config.blockBacked) = false →
      (imgDBVol.config.blockBacked && imgDBVol.config.blockFS != d.fillBlockFS) = false →
      ∀ e, d.setVolumeQuota (⟨.image, .image fingerprint⟩ : PhysVol) = some e →
      (e.is .cannotBeShrunk || e.is .notSupported) = true →
      EnsureImage b d st fingerprint imageIsVM now =
        ⟨none,
         ⟨st.dbVols.filter (fun r0 => r0.key !=
            (⟨projectDefault, .plain fingerprint, .image⟩ : VolKey)) ++
            [⟨⟨projectDefault, .plain fingerprint, .image⟩, false,
              ⟨d.fillBlockBacked, d.fillBlockFS, ""⟩, "",
              (if imageIsVM then ContentType.block else ContentType.fs), now, none⟩],
          st.physVols.filter (fun w => w != (⟨.image, .image fingerprint⟩ : PhysVol)) ++
            [⟨.image, .image fingerprint⟩]⟩,
         [Ev.drvSetQuota ⟨.image, .image fingerprint⟩ false,
          Ev.drvDeleteVolume ⟨.image, .image fingerprint⟩ true,
          Ev.dbDelete ⟨projectDefault, .plain fingerprint, .image⟩,
          Ev.authDelete ⟨projectDefault, .plain fingerprint, .image⟩,
          Ev.dbCreate ⟨⟨projectDefault, .plain fingerprint, .image⟩, false,
            ⟨d.fillBlockBacked, d.fillBlockFS, ""⟩, "",
            (if imageIsVM then ContentType.block else ContentType.fs), now, none⟩,
          Ev.authAdd ⟨projectDefault, .plain fingerprint, .image⟩,
          Ev.drvCreateVolume ⟨.image, .image fingerprint⟩ true]⟩) ∧
    ((d.fillBlockBacked != imgDBVol.config.blockBacked) = false →
      (imgDBVol.config.blockBacked && imgDBVol.config.blockFS != d.fillBlockFS) = false →
      d.setVolumeQuota (⟨.image, .image fingerprint⟩ : PhysVol) = none →
      EnsureImage b d st fingerprint imageIsVM now =
        ⟨none, st, [Ev.drvSetQuota ⟨.image, .image fingerprint⟩ true]⟩) := by
  refine ⟨?_, ?_, ?_, ?_⟩
  · intro hbm
    unfold EnsureImage
    rw [hready]
    simp only [hopt, Bool.not_true, Bool.false_eq_true, if_false, hfind, hbm, Bool.true_or,
      if_true]
    rw [deleteImage_ok b d st fingerprint imgDBVol hfind hphys hdelv]
    simp only [ensureImageAfterStaleCheck, contains_filter_ne, Bool.false_eq_true, if_false]
    rw [ensureImageCreateTail_ok b d _ fingerprint _ _ now (any_key_filter _ _) hcrtv]
    simp
  · intro hbm hbfs
    unfold EnsureImage
    rw [hready]
    simp only [hopt, Bool.not_true, Bool.false_eq_true, if_false, hfind, hbm, hbfs,
      Bool.false_or, if_true]
    rw [deleteImage_ok b d st fingerprint imgDBVol hfind hphys hdelv]
    simp only [ensureImageAfterStaleCheck, contains_filter_ne, Bool.false_eq_true, if_false]
    rw [ensureImageCreateTail_ok b d _ fingerprint _ _ now (any_key_filter _ _) hcrtv]
    simp
  · intro hbm hbfs e hq he
    unfold EnsureImage
    rw [hready]
    simp only [hopt, Bool.not_true, Bool.false_eq_true, if_false, hfind, hbm, hbfs,
      Bool.or_self]
    simp only [ensureImageAfterStaleCheck, hphys, if_true, hq, he]
    rw [deleteImage_ok b d st fingerprint imgDBVol hfind hphys hdelv]
    rw [ensureImageCreateTail_ok b d _ fingerprint _ _ now (any_key_filter _ _) hcrtv]
    simp
  · intro hbm hbfs hq
    unfold EnsureImage
    rw [hready]
    simp only [hopt, Bool.not_true, Bool.false_eq_true, if_false, hfind, hbm, hbfs,
      Bool.or_self]
    simp only [ensureImageAfterStaleCheck, hphys, if_true, hq, List.nil_append]

/-- A cached image volume built block-backed with filesystem "xfs", while
the pool's current defaults are non-block with "ext4". -/
def c6State : StorState :=
  ⟨[⟨⟨"default", .plain "fp1", .image⟩, false, ⟨true, "xfs", ""⟩, "", .fs, 0, none⟩],
   [⟨.image, .image "fp1"⟩]⟩

/-- C6 witness: the stale cached image volume is deleted and rebuilt with
the pool's current default settings. -/
theorem claim_C6_ensure_image_cache_witness :
    EnsureImage readyBackend okDriver c6State "fp1" false 0 =
      ⟨none,
       ⟨[⟨⟨"default", .plain "fp1", .image⟩, false, ⟨false, "ext4", ""⟩, "", .fs, 0, none⟩],
        [⟨.image, .image "fp1"⟩]⟩,
       [Ev.drvDeleteVolume ⟨.image, .image "fp1"⟩ true,
        Ev.dbDelete ⟨"default", .plain "fp1", .image⟩,
        Ev.authDelete ⟨"default", .plain "fp1", .image⟩,
        Ev.dbCreate ⟨⟨"default", .plain "fp1", .image⟩, false, ⟨false, "ext4", ""⟩, "", .fs, 0, none⟩,
        Ev.authAdd ⟨"default", .plain "fp1", .image⟩,
        Ev.drvCreateVolume ⟨.image, .image "fp1"⟩ true]⟩ := by
  have h := (claim_C6_ensure_image_cache readyBackend okDriver c6State "fp1" false 0
    (⟨⟨"default", .plain "fp1", .image⟩, false, ⟨true, "xfs", ""⟩, "", .fs, 0, none⟩ : VolRecord)
    rfl rfl rfl rfl rfl rfl).1 rfl
  exact h.trans (by decide)

/-- The storage-side pass without deleteMissing succeeds exactly on
storage snapshots all present in the backup config, touching nothing. -/
theorem backupSnapsDeleteLoop_false_ok (d : DriverBehavior) (bs : List String)
    (pn inst : String) (vt : VolType) :
    ∀ (l : List String) (st : StorState) (tr : List Ev),
      (∀ s ∈ l, bs.contains s = true) →
      backupSnapsDeleteLoop d false bs pn inst vt l st tr = (none, st, tr) := by
  intro l
  induction l with
  | nil => intro st tr h; rfl
  | cons s rest ih =>
      intro st tr h
      have hs := h s (List.mem_cons_self s rest)
      simp only [backupSnapsDeleteLoop, hs, if_true]
      exact ih st tr (fun x hx => h x (List.mem_cons_of_mem s hx))

/-- The storage-side pass without deleteMissing fails with the
snapshot-mismatch error when some storage snapshot is not in the backup
config, touching nothing. -/
theorem backupSnapsDeleteLoop_false_err (d : DriverBehavior) (bs : List String)
    (pn inst : String) (vt : VolType) :
    ∀ (l : List String) (st : StorState) (tr : List Ev),
      (∃ s ∈ l, bs.contains s = false) →
      backupSnapsDeleteLoop d false bs pn inst vt l st tr =
        (some (.wrap "Snapshot exists on storage device but not in backup config"
          .backupSnapshotsMismatch), st, tr) := by
  intro l
  induction l with
  | nil => intro st tr h; exact absurd h (by simp)
  | cons s rest ih =>
      intro st tr h
      cases hs : bs.contains s
      · simp only [backupSnapsDeleteLoop, hs, Bool.false_eq_true, if_false, Bool.not_false,
          if_true]
      · simp only [backupSnapsDeleteLoop, hs, if_true]
        obtain ⟨x, hx, hxf⟩ := h
        rcases List.mem_cons.mp hx with rfl | hx2
        · rw [hs] at hxf
          cases hxf
        · exact ih st tr ⟨x, hx2, hxf⟩

/-- The config-side pass without deleteMissing returns the whole config
list when every config snapshot exists on storage. -/
theorem backupSnapsExistingLoop_false_ok (ds : List String) :
    ∀ l : List String, (∀ s ∈ l, ds.contains s = true) →
      backupSnapsExistingLoop false ds l = .ok l := by
  intro l
  induction l with
  | nil => intro h; rfl
  | cons s rest ih =>
      intro h
      have hs := h s (List.mem_cons_self s rest)
      simp only [backupSnapsExistingLoop, hs, if_true,
        ih (fun x hx => h x (List.mem_cons_of_mem s hx))]

/-- The config-side pass without deleteMissing fails with the
snapshot-mismatch error when some config snapshot is absent from storage. -/
theorem backupSnapsExistingLoop_false_err (ds : List String) :
    ∀ l : List String, (∃ s ∈ l, ds.contains s = false) →
      backupSnapsExistingLoop false ds l =
        .error (.wrap "Snapshot exists in backup config but not on storage device"
          .backupSnapshotsMismatch) := by
  intro l
  induction l with
  | nil => intro h; exact absurd h (by simp)
  | cons s rest ih =>
      intro h
      cases hs : ds.contains s
      · simp only [backupSnapsExistingLoop, hs, Bool.false_eq_true, if_false, Bool.not_false,
          if_true]
      · obtain ⟨x, hx, hxf⟩ := h
        rcases List.mem_cons.mp hx with rfl | hx2
        · rw [hs] at hxf
          cases hxf
        · simp only [backupSnapsExistingLoop, hs, if_true, ih ⟨x, hx2, hxf⟩]

/-- The config-side pass with deleteMissing keeps exactly the config
snapshots that exist on storage. -/
theorem backupSnapsExistingLoop_true (ds : List String) :
    ∀ l : List String,
      backupSnapsExistingLoop true ds l = .ok (l.filter (fun s => ds.contains s)) := by
  intro l
  induction l with
  | nil => rfl
  | cons s rest ih =>
      cases hs : ds.contains s
      · simp only [backupSnapsExistingLoop, hs, Bool.false_eq_true, if_false, Bool.not_true,
          if_true, ih, List.filter_cons]
      · simp only [backupSnapsExistingLoop, hs, if_true, ih, List.filter_cons]

/-- The storage-side pass with deleteMissing and a succeeding driver
deletes exactly the storage snapshots absent from the backup config. -/
theorem backupSnapsDeleteLoop_true (d : DriverBehavior) (bs : List String)
    (pn inst : String) (vt : VolType)
    (hdelOK : ∀ v, d.deleteVolumeSnapshot v = none) :
    ∀ (l : List String) (st : StorState) (tr : List Ev),
      backupSnapsDeleteLoop d true bs pn inst vt l st tr =
        (none,
         ⟨st.dbVols, st.physVols.filter (fun w => !(l.any (fun s =>
           !(bs.contains s) && w == (⟨vt, .vol pn (.snap inst s)⟩ : PhysVol))))⟩,
         tr ++ (l.filter (fun s => !(bs.contains s))).map
           (fun s => Ev.drvDeleteVolumeSnapshot (⟨vt, .vol pn (.snap inst s)⟩ : PhysVol) true)) := by
  intro l
  induction l with
  | nil =>
      intro st tr
      simp [backupSnapsDeleteLoop]
  | cons s rest ih =>
      intro st tr
      cases hs : bs.contains s
      · simp only [backupSnapsDeleteLoop, hs, Bool.false_eq_true, if_false, Bool.not_true,
          Bool.not_false, if_true, hdelOK, applyEv]
        rw [ih]
        have h1 : (st.physVols.filter (fun w =>
            w != (⟨vt, .vol pn (.snap inst s)⟩ : PhysVol))).filter (fun w => !(rest.any (fun s2 =>
              !(bs.contains s2) && w == (⟨vt, .vol pn (.snap inst s2)⟩ : PhysVol)))) =
            st.physVols.filter (fun w => !((s :: rest).any (fun s2 =>
              !(bs.contains s2) && w == (⟨vt, .vol pn (.snap inst s2)⟩ : PhysVol)))) := by
          rw [List.filter_filter]
          refine List.filter_congr ?_
          intro w hw
          have hs2 : s ∉ bs := by simpa using hs
          simp [hs2, Bool.and_comm, bne]
        have h2 : (s :: rest).filter (fun s2 => !(bs.contains s2)) =
            s :: rest.filter (fun s2 => !(bs.contains s2)) := by
          have hs2 : s ∉ bs := by simpa using hs
          simp [List.filter_cons, hs2]
        rw [h1, h2]
        simp [List.append_assoc]
      · simp only [backupSnapsDeleteLoop, hs, if_true]
        rw [ih]
        have h1 : st.physVols.filter (fun w => !(rest.any (fun s2 =>
              !(bs.contains s2) && w == (⟨vt, .vol pn (.snap inst s2)⟩ : PhysVol)))) =
            st.physVols.filter (fun w => !((s :: rest).any (fun s2 =>
              !(bs.contains s2) && w == (⟨vt, .vol pn (.snap inst s2)⟩ : PhysVol)))) := by
          refine List.filter_congr ?_
          intro w hw
          have hs2 : s ∈ bs := by simpa using hs
          simp [hs2]
        have h2 : (s :: rest).filter (fun s2 => !(bs.contains s2)) =
            rest.filter (fun s2 => !(bs.contains s2)) := by
          have hs2 : s ∈ bs := by simpa using hs
          simp [List.filter_cons, hs2]
        rw [h1, h2]

/-- C8: with deleteMissing false any difference between the backup-config
snapshot set and the storage-device snapshot set (count mismatch, a
storage snapshot missing from the config, or a config snapshot missing
from storage) is an error wrapping the snapshot-mismatch sentinel with
nothing touched, and agreement returns the config list unchanged; with
deleteMissing true the storage extras are deleted, the config extras are
skipped, and exactly the snapshots present on both sides are returned. -/
theorem claim_C8_backup_snapshots (b : Backend) (d : DriverBehavior) (st : StorState)
    (projectName instName : String) (typeIsVM : Bool) (backupSnaps : List String)
    (hdelOK : ∀ v, d.deleteVolumeSnapshot v = none) :
    ((backupSnaps.length = (driverSnapshotNames st projectName instName
        (if typeIsVM then VolType.vm else VolType.container)).length ∧
      (∀ s ∈ driverSnapshotNames st projectName instName
          (if typeIsVM then VolType.vm else VolType.container), backupSnaps.contains s = true) ∧
      (∀ s ∈ backupSnaps, (driverSnapshotNames st projectName instName
          (if typeIsVM then VolType.vm else VolType.container)).contains s = true)) →
      CheckInstanceBackupFileSnapshots b d st projectName instName typeIsVM backupSnaps false =
        (.ok backupSnaps, st, [])) ∧
    ((backupSnaps.length ≠ (driverSnapshotNames st projectName instName
        (if typeIsVM then VolType.vm else VolType.container)).length ∨
      (∃ s ∈ driverSnapshotNames st projectName instName
          (if typeIsVM then VolType.vm else VolType.container), backupSnaps.contains s = false) ∨
      (∃ s ∈ backupSnaps, (driverSnapshotNames st projectName instName
          (if typeIsVM then VolType.vm else VolType.container)).contains s = false)) →
      ∃ m, CheckInstanceBackupFileSnapshots b d st projectName instName typeIsVM backupSnaps false =
        (.error (.wrap m .backupSnapshotsMismatch), st, [])) ∧
    (CheckInstanceBackupFileSnapshots b d st projectName instName typeIsVM backupSnaps true =
      (.ok (backupSnaps.filter (fun s => (driverSnapshotNames st projectName instName
          (if typeIsVM then VolType.vm else VolType.container)).contains s)),
       ⟨st.dbVols, st.physVols.filter (fun w =>
         !((driverSnapshotNames st projectName instName
             (if typeIsVM then VolType.vm else VolType.container)).any (fun s =>
           !(backupSnaps.contains s) && w ==
             (⟨(if typeIsVM then VolType.vm else VolType.container),
               .vol projectName (.snap instName s)⟩ : PhysVol))))⟩,
       ((driverSnapshotNames st projectName instName
           (if typeIsVM then VolType.vm else VolType.container)).filter
           (fun s => !(backupSnaps.contains s))).map
         (fun s => Ev.drvDeleteVolumeSnapshot
           (⟨(if typeIsVM then VolType.vm else VolType.container),
             .vol projectName (.snap instName s)⟩ : PhysVol) true))) := by
  refine ⟨?_, ?_, ?_⟩
  · rintro ⟨hlen, hds, hbs⟩
    unfold CheckInstanceBackupFileSnapshots
    have hbne : (backupSnaps.length != (driverSnapshotNames st projectName instName
        (if typeIsVM then VolType.vm else VolType.container)).length) = false := by
      simp [hlen]
    simp only [hbne, Bool.false_and, Bool.false_eq_true, if_false,
      backupSnapsDeleteLoop_false_ok d backupSnaps projectName instName _ _ st [] hds,
      backupSnapsExistingLoop_false_ok _ backupSnaps hbs]
  · intro hdiff
    by_cases hlen : (backupSnaps.length != (driverSnapshotNames st projectName instName
        (if typeIsVM then VolType.vm else VolType.container)).length) = true
    · refine ⟨"Snapshot count in backup config and storage device are different", ?_⟩
      unfold CheckInstanceBackupFileSnapshots
      simp only [hlen, Bool.not_false, Bool.and_true, Bool.true_and, if_true]
    · have hbne : (backupSnaps.length != (driverSnapshotNames st projectName instName
          (if typeIsVM then VolType.vm else VolType.container)).length) = false := by
        cases hb : backupSnaps.length != (driverSnapshotNames st projectName instName
            (if typeIsVM then VolType.vm else VolType.container)).length
        · rfl
        · exact absurd hb hlen
      by_cases hex : ∃ s ∈ driverSnapshotNames st projectName instName
          (if typeIsVM then VolType.vm else VolType.container), backupSnaps.contains s = false
      · refine ⟨"Snapshot exists on storage device but not in backup config", ?_⟩
        unfold CheckInstanceBackupFileSnapshots
        simp only [hbne, Bool.false_and, Bool.false_eq_true, if_false,
          backupSnapsDeleteLoop_false_err d backupSnaps projectName instName _ _ st [] hex]
      · have hall : ∀ s ∈ driverSnapshotNames st projectName instName
            (if typeIsVM then VolType.vm else VolType.container), backupSnaps.contains s = true := by
          intro s hs
          cases hc : backupSnaps.contains s
          · exact absurd ⟨s, hs, hc⟩ hex
          · rfl
        have hc : ∃ s ∈ backupSnaps, (driverSnapshotNames st projectName instName
            (if typeIsVM then VolType.vm else VolType.container)).contains s = false := by
          rcases hdiff with h | h | h
          · exact absurd (by simpa using hbne) h
          · exact absurd h hex
          · exact h
        refine ⟨"Snapshot exists in backup config but not on storage device", ?_⟩
        unfold CheckInstanceBackupFileSnapshots
        simp only [hbne, Bool.false_and, Bool.false_eq_true, if_false,
          backupSnapsDeleteLoop_false_ok d backupSnaps projectName instName _ _ st [] hall,
          backupSnapsExistingLoop_false_err _ backupSnaps hc]
  · unfold CheckInstanceBackupFileSnapshots
    simp only [Bool.not_true, Bool.and_false, Bool.false_eq_true, if_false,
      backupSnapsDeleteLoop_true d backupSnaps projectName instName _ hdelOK _ st [],
      backupSnapsExistingLoop_true, List.nil_append]

/-- C8 witness: with deleteMissing, the storage snapshot "s1" absent from
the backup config is deleted and only the common snapshot "s0" returned. -/
theorem claim_C8_backup_snapshots_witness :
    CheckInstanceBackupFileSnapshots readyBackend okDriver c5State "pr" "i1" false ["s0"] true =
      (.ok ["s0"],
       (⟨c5State.dbVols,
        [⟨.container, .vol "pr" (.plain "i1")⟩,
         ⟨.container, .vol "pr" (.snap "i1" "s0")⟩]⟩ : StorState),
       [Ev.drvDeleteVolumeSnapshot ⟨.container, .vol "pr" (.snap "i1" "s1")⟩ true]) := by
  have h := (claim_C8_backup_snapshots readyBackend okDriver c5State "pr" "i1" false ["s0"]
    (fun v => rfl)).2.2
  exact h.trans rfl

end IncusStorage
